import Mathlib

/-!
# cfmask output module (`src/cfmask/src/output.c`)

A shallow embedding of the functions of the cfmask output module
(`OpenOutput`, `OpenOutputConfidence`, `CloseOutput`, `FreeOutput`, `PutOutput`)
and the properties of its specification.

Modelling conventions.

* A C string is modelled by its contents, the characters before the
  terminating NUL, as a Lean `String`.  The capacities of the character
  buffers (`STR_SIZE`, `MAX_DATE_LEN`, both from headers that are not part of
  the module) are not modelled.
* A pointer is a natural number, `NULL` is `0`.  The `Output_t` structure is
  passed by value: every operation returns the state of the structure after
  the call (explicit state passing).
* Every call of an external routine (libc, the raw binary I/O library, the
  ESPA metadata library) is recorded in the `World`, most recent call first,
  and its result is given by an `Extern` oracle that may depend on everything
  that happened before.
* The constants of the absent headers are parameters (`Consts`).
-/

namespace Cfmask

/-! ## Data model -/

/-- Floating point values are only copied by this module, never computed
with; a value is represented by an uninterpreted code. -/
structure c_double where
  code : Nat
  deriving DecidableEq, Repr, Inhabited

/-- An address; `NULL` is address `0`. -/
abbrev Ptr := Nat

/-- The null pointer. -/
def NULL : Ptr := 0

/-- An `unsigned char`. -/
abbrev uchar := Fin 256

/-- The `struct tm` of `<time.h>` (the fields the date format reads). -/
structure tm where
  tm_sec : Int
  tm_min : Int
  tm_hour : Int
  tm_mday : Int
  tm_mon : Int
  tm_year : Int
  deriving DecidableEq, Repr

/-- The data types of the ESPA metadata library. -/
inductive Espa_data_type where
  | ESPA_INT8
  | ESPA_UINT8
  | ESPA_INT16
  | ESPA_UINT16
  | ESPA_INT32
  | ESPA_UINT32
  | ESPA_FLOAT32
  | ESPA_FLOAT64
  deriving DecidableEq, Repr, Inhabited

/-- One entry of a band's class table (`Espa_class_t`). -/
structure Espa_class_t where
  «class» : Int
  description : String
  deriving DecidableEq, Repr, Inhabited

/-- The band metadata record (`Espa_band_meta_t`), with the fields this module
reads or writes.  The two-element arrays `valid_range` and `pixel_size` are
pairs: `.1` is index 0 and `.2` is index 1. -/
structure Espa_band_meta_t where
  product : String
  source : String
  name : String
  category : String
  data_type : Espa_data_type
  nlines : Int
  nsamps : Int
  fill_value : Int
  valid_range : Int × Int
  long_name : String
  file_name : String
  short_name : String
  pixel_size : c_double × c_double
  pixel_units : String
  data_units : String
  app_version : String
  production_date : String
  nclass : Nat
  class_values : List Espa_class_t
  deriving DecidableEq, Repr, Inhabited

/-- The scene metadata (`Espa_internal_meta_t`): the array `band` of `nbands`
band records; `nbands` is the length of the list. -/
structure Espa_internal_meta_t where
  band : List Espa_band_meta_t
  deriving DecidableEq, Repr

/-- Number of bands of a metadata structure. -/
def Espa_internal_meta_t.nbands (m : Espa_internal_meta_t) : Nat := m.band.length

/-- Grid dimensions: lines `l` and samples `s`. -/
structure Img_coord_int_t where
  l : Int
  s : Int
  deriving DecidableEq, Repr

/-- The part of the input metadata this module reads. -/
structure Input_meta_t where
  pixel_size : c_double × c_double
  deriving DecidableEq, Repr

/-- The input structure (`Input_t`), with the fields this module reads. -/
structure Input_t where
  size : Img_coord_int_t
  meta : Input_meta_t
  deriving DecidableEq, Repr

/-- The output structure (`Output_t`). -/
structure Output_t where
  «open» : Bool
  metadata : Espa_internal_meta_t
  nband : Int
  size : Img_coord_int_t
  fp_bin : Ptr
  deriving DecidableEq, Repr

/-- Constants of the headers that are not part of the module. -/
structure Consts where
  CFMASK_APP_NAME : String
  CFMASK_VERSION : String
  CF_FILL_PIXEL : Int
  SUCCESS : Int
  MAX_DATE_LEN : Nat

/-! ## The outside world -/

/-- A call of an external routine, with its arguments and its result, or an
error report. -/
inductive Event where
  | malloc (ret : Ptr)
  | init_metadata_struct
  | allocate_band_metadata (nbands : Nat) (ret : Int)
  | time (ret : Int)
  | gmtime (tp : Int) (ret : Option tm)
  | strftime (max : Nat) (format : String) (t : tm) (ret : Nat) (s : String)
  | allocate_class_metadata (nclass : Nat) (ret : Int)
  | open_raw_binary (file : String) (mode : String) (ret : Ptr)
  | close_raw_binary (fp : Ptr)
  | write_raw_binary (fp : Ptr) (nlines nsamps : Int) (size : Nat)
      (img : List uchar) (ret : Int)
  | free (output : Output_t)
  | error (message : String) (modname : String)
  deriving DecidableEq, Repr

/-- The history of external calls, most recent first. -/
abbrev World := List Event

/-- The results of the external routines, as functions of the history. -/
structure Extern where
  malloc : World → Ptr
  allocate_band_metadata : World → Nat → Int
  time : World → Int
  gmtime : World → Int → Option tm
  strftime : World → Nat → String → tm → Nat × String
  allocate_class_metadata : World → Nat → Int
  open_raw_binary : World → String → String → Ptr
  write_raw_binary : World → Ptr → Int → Int → Nat → List uchar → Int

/-- Modelled from the spec: the macro `RETURN_ERROR` of the absent `error.h`
reports a message naming the failing operation and returns the given status to
the caller at once. -/
def RETURN_ERROR {α : Type} (message modname : String) (status : α) (w : World) :
    α × World :=
  (status, Event.error message modname :: w)

/-! ## The module -/

def FMASK_PRODUCT : String := "cfmask"
def FMASK_SHORTNAME : String := "CFMASK"
def FMASK_NAME : String := "cfmask"
def FMASK_LONG_NAME : String := "cfmask_band"
def FMASK_CONFIDENCE_SHORTNAME : String := "CFMASK_CONF"
def FMASK_CONFIDENCE_NAME : String := "cfmask_conf"
def FMASK_CONFIDENCE_LONG_NAME : String := "cfmask_conf_band"

/-- The loop that looks for the representative band: `band` is the part of
the band array from index `ib` on; the result is the first index whose band
has name `toa_band1` and product `toa_refl`, or `-1` (the initial value of
`ref_index`) when the loop ends without a match. -/
def find_ref_index (band : List Espa_band_meta_t) (ib : Nat) : Int :=
  match band with
  | [] => -1
  | b :: rest =>
    if b.name = "toa_band1" ∧ b.product = "toa_refl" then (ib : Int)
    else find_ref_index rest (ib + 1)

/-- The array access `in_meta->band[i]`. -/
def band_at (in_meta : Espa_internal_meta_t) (i : Int) : Espa_band_meta_t :=
  in_meta.band.getD i.toNat default

/-- The scene name: `strcpy` of the file name, cut at the first underscore
found by `strchr` (the whole name when there is none). -/
def scene_name_of (file_name : String) : String :=
  String.mk (file_name.data.takeWhile (fun c => c != '_'))

/-- The statement `sprintf(file_name, "%s_%s.img", scene_name, name)`. -/
def sprintf_file_name (scene_name name : String) : String :=
  scene_name ++ "_" ++ name ++ ".img"

/-- The statements `strncpy(dst, src, 3); dst[3] = 0; strcat(dst, suffix)`:
`strncpy` copies the characters of `src` up to its end or three of them,
whichever comes first, and fills the rest of the three bytes with NUL. -/
def short_name_of (src suffix : String) : String :=
  String.mk (src.data.take 3) ++ suffix

/-- The assignment `class_values[i].class = c`. -/
def set_class : List Espa_class_t → Nat → Int → List Espa_class_t
  | [], _, _ => []
  | e :: es, 0, c => { e with «class» := c } :: es
  | e :: es, i + 1, c => e :: set_class es i c

/-- The statement `strcpy(class_values[i].description, d)`. -/
def set_description : List Espa_class_t → Nat → String → List Espa_class_t
  | [], _, _ => []
  | e :: es, 0, d => { e with description := d } :: es
  | e :: es, i + 1, d => e :: set_description es i d

/-- The class table of the primary mask after `allocate_class_metadata` (which
sets `nclass` and gives that many zeroed entries) and the twelve assignments. -/
def cfmask_class_values (K : Consts) : List Espa_class_t :=
  let cv := List.replicate 6 (Espa_class_t.mk 0 "")
  let cv := set_class cv 0 0
  let cv := set_class cv 1 1
  let cv := set_class cv 2 2
  let cv := set_class cv 3 3
  let cv := set_class cv 4 4
  let cv := set_class cv 5 K.CF_FILL_PIXEL
  let cv := set_description cv 0 "clear"
  let cv := set_description cv 1 "water"
  let cv := set_description cv 2 "cloud_shadow"
  let cv := set_description cv 3 "snow"
  let cv := set_description cv 4 "cloud"
  set_description cv 5 "fill"

/-- The class table of the confidence band after `allocate_class_metadata`
and the ten assignments. -/
def cfmask_conf_class_values (K : Consts) : List Espa_class_t :=
  let cv := List.replicate 5 (Espa_class_t.mk 0 "")
  let cv := set_class cv 0 0
  let cv := set_class cv 1 1
  let cv := set_class cv 2 2
  let cv := set_class cv 3 3
  let cv := set_class cv 4 K.CF_FILL_PIXEL
  let cv := set_description cv 0 "None"
  let cv := set_description cv 1
    "less than or equal to 12.5 Percent Cloud Confidence"
  let cv := set_description cv 2
    ("greater than 12.5 and less than or equal to 22.5"
      ++ " Percent Cloud Confidence")
  let cv := set_description cv 3 "greater than 22.5 Percent Cloud Confidence"
  set_description cv 4 "fill"

/-- The function `OpenOutput`: the returned pointer (`none` is `NULL`, `some o`
a pointer to the structure `o`) and the world after the call. -/
def OpenOutput (K : Consts) (X : Extern) (in_meta : Espa_internal_meta_t)
    (input : Input_t) (w0 : World) : Option Output_t × World :=
  -- Create the Output data structure
  let output := X.malloc w0
  let w1 := Event.malloc output :: w0
  if output = NULL then
    RETURN_ERROR "allocating Output data structure" "OpenOutput" none w1
  else
  -- Find the representative band for metadata information
  let ref_index := find_ref_index in_meta.band 0
  -- Make sure we found the TOA band 1
  if ref_index = -1 then
    RETURN_ERROR ("Unable to find the TOA reflectance bands in the XML file"
      ++ " for initializing the output metadata.") "OpenOutput" none w1
  else
  -- Initialize the internal metadata for the output product
  let w2 := Event.init_metadata_struct :: w1
  -- Allocate memory for the output band
  let st_band := X.allocate_band_metadata w2 1
  let w3 := Event.allocate_band_metadata 1 st_band :: w2
  if st_band ≠ K.SUCCESS then
    RETURN_ERROR "allocating band metadata" "OpenOutput" none w3
  else
  -- the band record just allocated; every field of it is assigned below
  let bmeta0 : Espa_band_meta_t := default
  -- Determine the scene name
  let scene_name := scene_name_of (band_at in_meta ref_index).file_name
  -- Get the current date/time (UTC) for the production date of each band
  let tp := X.time w3
  let w4 := Event.time tp :: w3
  if tp = -1 then
    RETURN_ERROR "unable to obtain current time" "OpenOutput" none w4
  else
  let tm_ptr := X.gmtime w4 tp
  let w5 := Event.gmtime tp tm_ptr :: w4
  match tm_ptr with
  | none => RETURN_ERROR "converting time to UTC" "OpenOutput" none w5
  | some t =>
  let fmt := X.strftime w5 K.MAX_DATE_LEN "%Y-%m-%dT%H:%M:%SZ" t
  let w6 := Event.strftime K.MAX_DATE_LEN "%Y-%m-%dT%H:%M:%SZ" t fmt.1 fmt.2 :: w5
  if fmt.1 = 0 then
    RETURN_ERROR "formatting the production date/time" "OpenOutput" none w6
  else
  let production_date := fmt.2
  -- Populate the data structure (`bmeta0` is the record `out.metadata.band[0]`
  -- and is stored there once complete)
  let out : Output_t :=
    { «open» := false, fp_bin := NULL, nband := 1,
      size := { l := input.size.l, s := input.size.s },
      metadata := { band := [bmeta0] } }
  let bmeta0 : Espa_band_meta_t :=
    { bmeta0 with
      short_name := short_name_of (band_at in_meta ref_index).short_name FMASK_SHORTNAME
      product := FMASK_PRODUCT
      source := "toa_refl"
      category := "qa"
      nlines := out.size.l
      nsamps := out.size.s
      pixel_size := (input.meta.pixel_size.1, input.meta.pixel_size.2)
      pixel_units := "meters"
      app_version := K.CFMASK_APP_NAME ++ "_" ++ K.CFMASK_VERSION
      production_date := production_date
      data_type := Espa_data_type.ESPA_UINT8
      fill_value := K.CF_FILL_PIXEL
      valid_range := (0, 4)
      name := FMASK_NAME
      long_name := FMASK_LONG_NAME
      data_units := "quality/feature classification" }
  -- Set up class values information
  let st_class := X.allocate_class_metadata w6 6
  let w7 := Event.allocate_class_metadata 6 st_class :: w6
  if st_class ≠ K.SUCCESS then
    RETURN_ERROR "allocating cfmask classes" "OpenOutput" none w7
  else
  -- Identify the class values for the mask
  let bmeta0 := { bmeta0 with nclass := 6, class_values := cfmask_class_values K }
  -- Set up the filename with the scene name and band name and open the
  -- file for write access
  let file_name := sprintf_file_name scene_name bmeta0.name
  let bmeta0 := { bmeta0 with file_name := file_name }
  let out := { out with metadata := { band := [bmeta0] } }
  let out := { out with fp_bin := X.open_raw_binary w7 file_name "w" }
  let w8 := Event.open_raw_binary file_name "w" out.fp_bin :: w7
  if out.fp_bin = NULL then
    RETURN_ERROR "unable to open output file" "OpenOutput" none w8
  else
    let out := { out with «open» := true }
    (some out, w8)

/-- The function `OpenOutputConfidence`: the returned pointer (`none` is
`NULL`) and the world after the call. -/
def OpenOutputConfidence (K : Consts) (X : Extern) (in_meta : Espa_internal_meta_t)
    (input : Input_t) (w0 : World) : Option Output_t × World :=
  -- Create the Output data structure
  let output := X.malloc w0
  let w1 := Event.malloc output :: w0
  if output = NULL then
    RETURN_ERROR "allocating Output data structure" "OpenOutput" none w1
  else
  -- Find the representative band for metadata information
  let ref_index := find_ref_index in_meta.band 0
  -- Make sure we found the TOA band 1
  if ref_index = -1 then
    RETURN_ERROR ("Unable to find the TOA reflectance bands in the XML file"
      ++ " for initializing the output metadata.") "OpenOutput" none w1
  else
  -- Initialize the internal metadata for the output product
  let w2 := Event.init_metadata_struct :: w1
  -- Allocate memory for the output band
  let st_band := X.allocate_band_metadata w2 1
  let w3 := Event.allocate_band_metadata 1 st_band :: w2
  if st_band ≠ K.SUCCESS then
    RETURN_ERROR "allocating band metadata" "OpenOutput" none w3
  else
  -- the band record just allocated; every field of it is assigned below
  let bmeta0 : Espa_band_meta_t := default
  -- Determine the scene name
  let scene_name := scene_name_of (band_at in_meta ref_index).file_name
  -- Get the current date/time (UTC) for the production date of each band
  let tp := X.time w3
  let w4 := Event.time tp :: w3
  if tp = -1 then
    RETURN_ERROR "unable to obtain current time" "OpenOutput" none w4
  else
  let tm_ptr := X.gmtime w4 tp
  let w5 := Event.gmtime tp tm_ptr :: w4
  match tm_ptr with
  | none => RETURN_ERROR "converting time to UTC" "OpenOutput" none w5
  | some t =>
  let fmt := X.strftime w5 K.MAX_DATE_LEN "%Y-%m-%dT%H:%M:%SZ" t
  let w6 := Event.strftime K.MAX_DATE_LEN "%Y-%m-%dT%H:%M:%SZ" t fmt.1 fmt.2 :: w5
  if fmt.1 = 0 then
    RETURN_ERROR "formatting the production date/time" "OpenOutput" none w6
  else
  let production_date := fmt.2
  -- Populate the data structure (`bmeta0` is the record `out.metadata.band[0]`
  -- and is stored there once complete)
  let out : Output_t :=
    { «open» := false, fp_bin := NULL, nband := 1,
      size := { l := input.size.l, s := input.size.s },
      metadata := { band := [bmeta0] } }
  let bmeta0 : Espa_band_meta_t :=
    { bmeta0 with
      short_name := short_name_of (band_at in_meta ref_index).short_name FMASK_CONFIDENCE_SHORTNAME
      product := FMASK_PRODUCT
      source := "toa_refl"
      category := "qa"
      nlines := out.size.l
      nsamps := out.size.s
      pixel_size := (input.meta.pixel_size.1, input.meta.pixel_size.2)
      pixel_units := "meters"
      app_version := K.CFMASK_APP_NAME ++ "_" ++ K.CFMASK_VERSION
      production_date := production_date
      data_type := Espa_data_type.ESPA_UINT8
      fill_value := K.CF_FILL_PIXEL
      valid_range := (0, 3)
      name := FMASK_CONFIDENCE_NAME
      long_name := FMASK_CONFIDENCE_LONG_NAME
      data_units := "quality/feature classification" }
  -- Set up class values information
  let st_class := X.allocate_class_metadata w6 5
  let w7 := Event.allocate_class_metadata 5 st_class :: w6
  if st_class ≠ K.SUCCESS then
    RETURN_ERROR "allocating cfmask classes" "OpenOutput" none w7
  else
  -- Identify the class values for the mask
  let bmeta0 := { bmeta0 with nclass := 5, class_values := cfmask_conf_class_values K }
  -- Set up the filename with the scene name and band name and open the
  -- file for write access
  let file_name := sprintf_file_name scene_name bmeta0.name
  let bmeta0 := { bmeta0 with file_name := file_name }
  let out := { out with metadata := { band := [bmeta0] } }
  let out := { out with fp_bin := X.open_raw_binary w7 file_name "w" }
  let w8 := Event.open_raw_binary file_name "w" out.fp_bin :: w7
  if out.fp_bin = NULL then
    RETURN_ERROR "unable to open output file" "OpenOutput" none w8
  else
    let out := { out with «open» := true }
    (some out, w8)

/-- The function `CloseOutput`: the returned status with the state of the
structure after the call, and the world after the call. -/
def CloseOutput (output : Output_t) (w : World) : (Bool × Output_t) × World :=
  if !output.«open» then
    RETURN_ERROR "image files not open" "CloseOutput" (false, output) w
  else
    let w1 := Event.close_raw_binary output.fp_bin :: w
    let output := { output with «open» := false }
    ((true, output), w1)

/-- The function `FreeOutput`: the returned status with the state of the
structure after the call (`none` once it has been passed to `free`), and the
world after the call. -/
def FreeOutput (output : Output_t) (w : World) : (Bool × Option Output_t) × World :=
  if output.«open» then
    RETURN_ERROR "file still open" "FreeOutput" (false, some output) w
  else
    let w1 := Event.free output :: w
    ((true, none), w1)

/-- The function `PutOutput`: `output` is the pointer argument (`none` is
`NULL`); the result is the returned status with the state of the structure
after the call, and the world after the call. -/
def PutOutput (K : Consts) (X : Extern) (output : Option Output_t)
    (final_mask : List uchar) (w : World) : (Bool × Option Output_t) × World :=
  -- Check the parameters
  match output with
  | none => RETURN_ERROR "invalid input structure" "PutOutputLine" (false, none) w
  | some o =>
    if !o.«open» then
      RETURN_ERROR "file not open" "PutOutputLine" (false, some o) w
    else
      -- `sizeof(unsigned char)` is 1
      let st := X.write_raw_binary w o.fp_bin o.size.l o.size.s 1 final_mask
      let w1 := Event.write_raw_binary o.fp_bin o.size.l o.size.s 1 final_mask st :: w
      if st ≠ K.SUCCESS then
        RETURN_ERROR "writing output line" "PutOutput" (false, some o) w1
      else
        ((true, some o), w1)

/-! ## Observations of the world and reachable states -/

/-- The external call recorded by an event reported a failure, by the test
the module applies to its result. -/
def call_failed (K : Consts) : Event → Bool
  | Event.malloc ret => decide (ret = NULL)
  | Event.allocate_band_metadata _ ret => decide (ret ≠ K.SUCCESS)
  | Event.time ret => decide (ret = -1)
  | Event.gmtime _ ret => ret.isNone
  | Event.strftime _ _ _ ret _ => decide (ret = 0)
  | Event.allocate_class_metadata _ ret => decide (ret ≠ K.SUCCESS)
  | Event.open_raw_binary _ _ ret => decide (ret = NULL)
  | Event.write_raw_binary _ _ _ _ _ ret => decide (ret ≠ K.SUCCESS)
  | _ => false

/-- The event is a call of the stream opener. -/
def is_open_call : Event → Bool
  | Event.open_raw_binary _ _ _ => true
  | _ => false

/-- The event is a call of the write primitive. -/
def is_write_call : Event → Bool
  | Event.write_raw_binary _ _ _ _ _ _ => true
  | _ => false

/-- The event is a call of the stream-close primitive. -/
def is_close_call : Event → Bool
  | Event.close_raw_binary _ => true
  | _ => false

/-- The event is a release of an output structure. -/
def is_free_call : Event → Bool
  | Event.free _ => true
  | _ => false

/-- Number of calls of the stream opener in a history. -/
def n_open (w : World) : Nat := w.countP is_open_call

/-- Number of calls of the write primitive in a history. -/
def n_write (w : World) : Nat := w.countP is_write_call

/-- Number of calls of the stream-close primitive in a history. -/
def n_close (w : World) : Nat := w.countP is_close_call

/-- Number of releases of an output structure in a history. -/
def n_free (w : World) : Nat := w.countP is_free_call

/-- The states of an output structure that the operations of the module can
produce: the structures returned by the two builders, and the state after any
call of `PutOutput`, `CloseOutput` or `FreeOutput` on such a structure. -/
inductive Reachable (K : Consts) (X : Extern) : Output_t → Prop where
  | open_output (in_meta : Espa_internal_meta_t) (input : Input_t) (w0 : World)
      (o : Output_t) :
      (OpenOutput K X in_meta input w0).1 = some o → Reachable K X o
  | open_output_confidence (in_meta : Espa_internal_meta_t) (input : Input_t)
      (w0 : World) (o : Output_t) :
      (OpenOutputConfidence K X in_meta input w0).1 = some o → Reachable K X o
  | put_output (o o1 : Output_t) (final_mask : List uchar) (w : World) :
      Reachable K X o → (PutOutput K X (some o) final_mask w).1.2 = some o1 →
      Reachable K X o1
  | close_output (o : Output_t) (w : World) :
      Reachable K X o → Reachable K X (CloseOutput o w).1.2
  | free_output (o o1 : Output_t) (w : World) :
      Reachable K X o → (FreeOutput o w).1.2 = some o1 → Reachable K X o1

/-! ## Concrete inputs -/

/-- Constants as in the cfmask headers. -/
def K0 : Consts :=
  { CFMASK_APP_NAME := "cfmask", CFMASK_VERSION := "1.4.1", CF_FILL_PIXEL := 255,
    SUCCESS := 0, MAX_DATE_LEN := 28 }

/-- An instant of the calendar. -/
def tm0 : tm :=
  { tm_sec := 5, tm_min := 4, tm_hour := 3, tm_mday := 2, tm_mon := 0, tm_year := 115 }

/-- An outside world in which every external call succeeds. -/
def X_ok : Extern :=
  { malloc := fun _ => 4096
    allocate_band_metadata := fun _ _ => 0
    time := fun _ => 1420167845
    gmtime := fun _ _ => some tm0
    strftime := fun _ _ _ _ => (20, "2015-01-02T03:04:05Z")
    allocate_class_metadata := fun _ _ => 0
    open_raw_binary := fun _ _ _ => 8192
    write_raw_binary := fun _ _ _ _ _ _ => 0 }

/-- An outside world without memory: `malloc` returns `NULL`. -/
def X_no_memory : Extern := { X_ok with malloc := fun _ => NULL }

/-- An outside world in which every write fails. -/
def X_write_fails : Extern := { X_ok with write_raw_binary := fun _ _ _ _ _ _ => 1 }

/-- A band record with the given identity. -/
def band0 (name product file_name short_name : String) : Espa_band_meta_t :=
  { (default : Espa_band_meta_t) with
    name := name, product := product, file_name := file_name, short_name := short_name }

/-- The reference band of a scene. -/
def ref_band0 : Espa_band_meta_t :=
  band0 "toa_band1" "toa_refl" "LC08_L1TP_123.dat" "LC8TOA"

/-- A reference band whose file name has no underscore. -/
def ref_band1 : Espa_band_meta_t :=
  band0 "toa_band1" "toa_refl" "noUnderscoreName.dat" "LC8TOA"

/-- A scene with the reference band in second place. -/
def meta0 : Espa_internal_meta_t :=
  { band := [band0 "band1" "L1T" "LC08_L1TP_123_B1.img" "LC8DN", ref_band0] }

/-- A scene whose bands match the reference band in at most one of the two
fields. -/
def meta_no_ref : Espa_internal_meta_t :=
  { band := [band0 "toa_band1" "L1T" "LC08_L1TP_123_B1.img" "LC8DN",
             band0 "toa_band2" "toa_refl" "LC08_L1TP_123_B2.img" "LC8TOA"] }

/-- An input grid of two lines and three samples. -/
def input0 : Input_t :=
  { size := { l := 2, s := 3 }, meta := { pixel_size := (⟨30⟩, ⟨30⟩) } }

/-- A buffer for the grid of `input0`. -/
def mask0 : List uchar := [0, 1, 2, 3, 4, 255]

/-- The band metadata that `OpenOutput` builds for `meta0` and `input0`. -/
def bmeta_cfmask0 : Espa_band_meta_t :=
  { product := "cfmask", source := "toa_refl", name := "cfmask", category := "qa",
    data_type := Espa_data_type.ESPA_UINT8, nlines := 2, nsamps := 3,
    fill_value := 255, valid_range := (0, 4), long_name := "cfmask_band",
    file_name := "LC08_cfmask.img", short_name := "LC8CFMASK",
    pixel_size := (⟨30⟩, ⟨30⟩), pixel_units := "meters",
    data_units := "quality/feature classification", app_version := "cfmask_1.4.1",
    production_date := "2015-01-02T03:04:05Z", nclass := 6,
    class_values := [⟨0, "clear"⟩, ⟨1, "water"⟩, ⟨2, "cloud_shadow"⟩, ⟨3, "snow"⟩,
      ⟨4, "cloud"⟩, ⟨255, "fill"⟩] }

/-- The band metadata that `OpenOutputConfidence` builds for `meta0` and
`input0`. -/
def bmeta_conf0 : Espa_band_meta_t :=
  { product := "cfmask", source := "toa_refl", name := "cfmask_conf", category := "qa",
    data_type := Espa_data_type.ESPA_UINT8, nlines := 2, nsamps := 3,
    fill_value := 255, valid_range := (0, 3), long_name := "cfmask_conf_band",
    file_name := "LC08_cfmask_conf.img", short_name := "LC8CFMASK_CONF",
    pixel_size := (⟨30⟩, ⟨30⟩), pixel_units := "meters",
    data_units := "quality/feature classification", app_version := "cfmask_1.4.1",
    production_date := "2015-01-02T03:04:05Z", nclass := 5,
    class_values := [⟨0, "None"⟩,
      ⟨1, "less than or equal to 12.5 Percent Cloud Confidence"⟩,
      ⟨2, "greater than 12.5 and less than or equal to 22.5 Percent Cloud Confidence"⟩,
      ⟨3, "greater than 22.5 Percent Cloud Confidence"⟩, ⟨255, "fill"⟩] }

/-- The structure that `OpenOutput` returns for `meta0` and `input0`. -/
def out_cfmask0 : Output_t :=
  { «open» := true, metadata := { band := [bmeta_cfmask0] }, nband := 1,
    size := { l := 2, s := 3 }, fp_bin := 8192 }

/-- The structure that `OpenOutputConfidence` returns for `meta0` and `input0`. -/
def out_conf0 : Output_t :=
  { «open» := true, metadata := { band := [bmeta_conf0] }, nband := 1,
    size := { l := 2, s := 3 }, fp_bin := 8192 }

/-- The structure that `OpenOutput` returns for a scene whose only band is
`ref_band1`, and `input0`. -/
def out_cfmask1 : Output_t :=
  { out_cfmask0 with
    metadata := { band := [{ bmeta_cfmask0 with
      file_name := "noUnderscoreName.dat_cfmask.img" }] } }

/-- A reference band whose short name has two characters. -/
def ref_band_short : Espa_band_meta_t :=
  band0 "toa_band1" "toa_refl" "LC08_L1TP_123.dat" "AB"

/-- A reference band whose record gives a pixel size of 15, where the input
structure `input0` gives 30. -/
def ref_band_15 : Espa_band_meta_t :=
  { ref_band0 with pixel_size := (⟨15⟩, ⟨15⟩) }

/-- An outside world whose stream opener looks at the file name: it refuses
the empty name and otherwise returns a handle that depends on the name. -/
def X_by_name : Extern :=
  { X_ok with
    open_raw_binary := fun _ file _ => if file = "" then NULL else 8192 + file.length }

/-- The structure that `OpenOutput` returns for `meta0` and `input0` in the
world `X_by_name`. -/
def out_cfmask_by_name : Output_t := { out_cfmask0 with fp_bin := 8207 }

/-- The structure that `OpenOutputConfidence` returns for `meta0` and `input0`
in the world `X_by_name`. -/
def out_conf_by_name : Output_t := { out_conf0 with fp_bin := 8212 }

/-- The structure `out_cfmask0` after `CloseOutput`. -/
def out_closed0 : Output_t := { out_cfmask0 with «open» := false }


/-! ## Sequences of calls on a descriptor -/

/-- A call on a descriptor that has been built: `PutOutput` with a buffer, or
`CloseOutput`. -/
inductive Op where
  | put (final_mask : List uchar)
  | close
  deriving DecidableEq, Repr

/-- The calls of a list made in order on the structure `o`: the statuses they
return, in order, with the state of the structure and the world after the last
call. -/
def run_ops (K : Consts) (X : Extern) : List Op → Output_t → World →
    List Bool × Output_t × World
  | [], o, w => ([], o, w)
  | Op.put final_mask :: rest, o, w =>
    let r := PutOutput K X (some o) final_mask w
    let t := run_ops K X rest (r.1.2.getD o) r.2
    (r.1.1 :: t.1, t.2)
  | Op.close :: rest, o, w =>
    let r := CloseOutput o w
    let t := run_ops K X rest r.1.2 r.2
    (r.1.1 :: t.1, t.2)

/-! ## Auxiliary facts -/

theorem find_ref_index_nonneg_or (band : List Espa_band_meta_t) (ib : Nat) :
    find_ref_index band ib = -1 ∨ (ib : Int) ≤ find_ref_index band ib := by
  induction band generalizing ib with
  | nil => left; rfl
  | cons b rest ih =>
    unfold find_ref_index
    split
    · right; exact le_refl _
    · rcases ih (ib + 1) with h | h
      · left; exact h
      · right; push_cast at h; omega

theorem find_ref_index_no_match (band : List Espa_band_meta_t) (ib : Nat)
    (h : ∀ a ∈ band, ¬ (a.name = "toa_band1" ∧ a.product = "toa_refl")) :
    find_ref_index band ib = -1 := by
  induction band generalizing ib with
  | nil => rfl
  | cons b rest ih =>
    unfold find_ref_index
    rw [if_neg (h b (List.mem_cons_self _ _))]
    exact ih (ib + 1) (fun a ha => h a (List.mem_cons_of_mem _ ha))

theorem find_ref_index_eq_neg_one_iff (band : List Espa_band_meta_t) (ib : Nat) :
    find_ref_index band ib = -1 ↔
      ∀ a ∈ band, ¬ (a.name = "toa_band1" ∧ a.product = "toa_refl") := by
  constructor
  · intro h
    induction band generalizing ib with
    | nil => intro a ha; cases ha
    | cons b rest ih =>
      unfold find_ref_index at h
      split at h
      · omega
      · rename_i hb
        intro a ha
        rcases List.mem_cons.mp ha with rfl | ha1
        · exact hb
        · exact ih (ib + 1) h a ha1
  · exact find_ref_index_no_match band ib

theorem find_ref_index_first_match (pre : List Espa_band_meta_t) (b : Espa_band_meta_t)
    (post : List Espa_band_meta_t) (ib : Nat)
    (hpre : ∀ a ∈ pre, ¬ (a.name = "toa_band1" ∧ a.product = "toa_refl"))
    (hb : b.name = "toa_band1" ∧ b.product = "toa_refl") :
    find_ref_index (pre ++ b :: post) ib = ((ib + pre.length : Nat) : Int) := by
  induction pre generalizing ib with
  | nil =>
    simp only [List.nil_append, List.length_nil, Nat.add_zero]
    unfold find_ref_index
    rw [if_pos hb]
  | cons a rest ih =>
    simp only [List.cons_append, List.length_cons]
    unfold find_ref_index
    rw [if_neg (hpre a (List.mem_cons_self _ _))]
    rw [ih (ib + 1) (fun x hx => hpre x (List.mem_cons_of_mem _ hx))]
    congr 1
    omega

theorem band_at_first_match (pre : List Espa_band_meta_t) (b : Espa_band_meta_t)
    (post : List Espa_band_meta_t)
    (hpre : ∀ a ∈ pre, ¬ (a.name = "toa_band1" ∧ a.product = "toa_refl"))
    (hb : b.name = "toa_band1" ∧ b.product = "toa_refl") :
    band_at ⟨pre ++ b :: post⟩ (find_ref_index (pre ++ b :: post) 0) = b := by
  rw [find_ref_index_first_match pre b post 0 hpre hb]
  simp only [band_at, Int.toNat_ofNat, Nat.zero_add, List.getD_eq_getElem?_getD]
  rw [List.getElem?_append_right (le_refl _)]
  simp

theorem takeWhile_stop {α : Type} (p : α → Bool) (l : List α) (x : α) (r : List α)
    (hl : ∀ a ∈ l, p a = true) (hx : p x = false) :
    (l ++ x :: r).takeWhile p = l := by
  induction l with
  | nil => simp [List.takeWhile, hx]
  | cons a t ih =>
    simp only [List.cons_append]
    rw [List.takeWhile_cons, if_pos (hl a (List.mem_cons_self _ _))]
    rw [ih (fun y hy => hl y (List.mem_cons_of_mem _ hy))]

theorem scene_name_of_eq (f s : String)
    (hs : ('_' ∉ f.data ∧ s = f) ∨ ('_' ∉ s.data ∧ ∃ rest, f = s ++ "_" ++ rest)) :
    scene_name_of f = s := by
  unfold scene_name_of
  rcases hs with ⟨hno, rfl⟩ | ⟨hno, rest, rfl⟩
  · have h : s.data.takeWhile (fun c => c != '_') = s.data := by
      rw [List.takeWhile_eq_self_iff]
      intro a ha
      have : a ≠ '_' := fun e => hno (e ▸ ha)
      simpa using this
    rw [h]
  · have hd : (s ++ "_" ++ rest).data = s.data ++ '_' :: rest.data := by
      simp [String.data_append]
    rw [hd, takeWhile_stop]
    · intro a ha
      have : a ≠ '_' := fun e => hno (e ▸ ha)
      simpa using this
    · simp

theorem exists_events_nil {w0 : World} {P : List Event → Prop} (h : P []) :
    ∃ evs, w0 = evs ++ w0 ∧ P evs := ⟨[], rfl, h⟩

theorem exists_events_cons {w w0 : World} {e : Event} {P : List Event → Prop}
    (h : ∃ evs, w = evs ++ w0 ∧ P (e :: evs)) :
    ∃ evs, e :: w = evs ++ w0 ∧ P evs := by
  obtain ⟨evs, h1, h2⟩ := h
  exact ⟨e :: evs, by rw [h1]; rfl, h2⟩

set_option maxHeartbeats 2000000 in
theorem OpenOutput_events (K : Consts) (X : Extern) (in_meta : Espa_internal_meta_t)
    (input : Input_t) (w0 : World) :
    ∃ evs, (OpenOutput K X in_meta input w0).2 = evs ++ w0 ∧
      (((OpenOutput K X in_meta input w0).1 = none ↔
          (find_ref_index in_meta.band 0 = -1 ∨ ∃ e ∈ evs, call_failed K e = true)) ∧
       (∀ f m p, Event.open_raw_binary f m p ∈ evs →
          find_ref_index in_meta.band 0 ≠ -1 ∧ m = "w" ∧
          f = sprintf_file_name
            (scene_name_of (band_at in_meta (find_ref_index in_meta.band 0)).file_name)
            FMASK_NAME) ∧
       (∀ o, (OpenOutput K X in_meta input w0).1 = some o →
          ∃ f, evs.head? = some (Event.open_raw_binary f "w" o.fp_bin)) ∧
       (∀ e ∈ evs, is_write_call e = false ∧ is_close_call e = false ∧
          is_free_call e = false)) := by
  generalize hr : OpenOutput K X in_meta input w0 = r
  unfold OpenOutput at hr
  simp only [RETURN_ERROR] at hr
  generalize X.malloc w0 = p at hr
  generalize X.allocate_band_metadata _ _ = st_band at hr
  generalize X.time _ = tp at hr
  generalize X.gmtime _ _ = tm_ptr at hr
  repeat' split at hr
  all_goals try generalize X.strftime _ _ _ _ = fmt at *
  all_goals try generalize X.allocate_class_metadata _ _ = st_class at *
  all_goals try generalize X.open_raw_binary _ _ _ = fp at *
  all_goals subst hr
  all_goals
    repeat (first | apply exists_events_nil | apply exists_events_cons)
  all_goals refine ⟨?_, ?_, ?_, ?_⟩
  all_goals simp_all [call_failed, is_write_call, is_close_call, is_free_call]

set_option maxHeartbeats 2000000 in
theorem OpenOutputConfidence_events (K : Consts) (X : Extern)
    (in_meta : Espa_internal_meta_t) (input : Input_t) (w0 : World) :
    ∃ evs, (OpenOutputConfidence K X in_meta input w0).2 = evs ++ w0 ∧
      (((OpenOutputConfidence K X in_meta input w0).1 = none ↔
          (find_ref_index in_meta.band 0 = -1 ∨ ∃ e ∈ evs, call_failed K e = true)) ∧
       (∀ f m p, Event.open_raw_binary f m p ∈ evs →
          find_ref_index in_meta.band 0 ≠ -1 ∧ m = "w" ∧
          f = sprintf_file_name
            (scene_name_of (band_at in_meta (find_ref_index in_meta.band 0)).file_name)
            FMASK_CONFIDENCE_NAME) ∧
       (∀ o, (OpenOutputConfidence K X in_meta input w0).1 = some o →
          ∃ f, evs.head? = some (Event.open_raw_binary f "w" o.fp_bin)) ∧
       (∀ e ∈ evs, is_write_call e = false ∧ is_close_call e = false ∧
          is_free_call e = false)) := by
  generalize hr : OpenOutputConfidence K X in_meta input w0 = r
  unfold OpenOutputConfidence at hr
  simp only [RETURN_ERROR] at hr
  generalize X.malloc w0 = p at hr
  generalize X.allocate_band_metadata _ _ = st_band at hr
  generalize X.time _ = tp at hr
  generalize X.gmtime _ _ = tm_ptr at hr
  repeat' split at hr
  all_goals try generalize X.strftime _ _ _ _ = fmt at *
  all_goals try generalize X.allocate_class_metadata _ _ = st_class at *
  all_goals try generalize X.open_raw_binary _ _ _ = fp at *
  all_goals subst hr
  all_goals
    repeat (first | apply exists_events_nil | apply exists_events_cons)
  all_goals refine ⟨?_, ?_, ?_, ?_⟩
  all_goals simp_all [call_failed, is_write_call, is_close_call, is_free_call]

theorem OpenOutput_some (K : Consts) (X : Extern) (in_meta : Espa_internal_meta_t)
    (input : Input_t) (w0 : World) (o : Output_t) (w : World)
    (h : OpenOutput K X in_meta input w0 = (some o, w)) :
    find_ref_index in_meta.band 0 ≠ -1 ∧ o.fp_bin ≠ NULL ∧
    ∃ production_date w7,
      w = Event.open_raw_binary
            (sprintf_file_name
              (scene_name_of (band_at in_meta (find_ref_index in_meta.band 0)).file_name)
              FMASK_NAME) "w" o.fp_bin :: w7 ∧
      o = { «open» := true, fp_bin := o.fp_bin, nband := 1,
            size := { l := input.size.l, s := input.size.s },
            metadata := { band := [
              { short_name := short_name_of
                  (band_at in_meta (find_ref_index in_meta.band 0)).short_name FMASK_SHORTNAME
                product := FMASK_PRODUCT
                source := "toa_refl"
                category := "qa"
                nlines := input.size.l
                nsamps := input.size.s
                pixel_size := (input.meta.pixel_size.1, input.meta.pixel_size.2)
                pixel_units := "meters"
                app_version := K.CFMASK_APP_NAME ++ "_" ++ K.CFMASK_VERSION
                production_date := production_date
                data_type := Espa_data_type.ESPA_UINT8
                fill_value := K.CF_FILL_PIXEL
                valid_range := (0, 4)
                name := FMASK_NAME
                long_name := FMASK_LONG_NAME
                data_units := "quality/feature classification"
                nclass := 6
                class_values := cfmask_class_values K
                file_name := sprintf_file_name
                  (scene_name_of (band_at in_meta (find_ref_index in_meta.band 0)).file_name)
                  FMASK_NAME }] } } := by
  unfold OpenOutput at h
  simp only [RETURN_ERROR] at h
  repeat' split at h
  all_goals simp only [Prod.mk.injEq, reduceCtorEq, false_and, Option.some.injEq] at h
  obtain ⟨rfl, rfl⟩ := h
  exact ⟨by assumption, by assumption, _, _, rfl, rfl⟩

theorem OpenOutputConfidence_some (K : Consts) (X : Extern)
    (in_meta : Espa_internal_meta_t) (input : Input_t) (w0 : World) (o : Output_t)
    (w : World) (h : OpenOutputConfidence K X in_meta input w0 = (some o, w)) :
    find_ref_index in_meta.band 0 ≠ -1 ∧ o.fp_bin ≠ NULL ∧
    ∃ production_date w7,
      w = Event.open_raw_binary
            (sprintf_file_name
              (scene_name_of (band_at in_meta (find_ref_index in_meta.band 0)).file_name)
              FMASK_CONFIDENCE_NAME) "w" o.fp_bin :: w7 ∧
      o = { «open» := true, fp_bin := o.fp_bin, nband := 1,
            size := { l := input.size.l, s := input.size.s },
            metadata := { band := [
              { short_name := short_name_of
                  (band_at in_meta (find_ref_index in_meta.band 0)).short_name
                  FMASK_CONFIDENCE_SHORTNAME
                product := FMASK_PRODUCT
                source := "toa_refl"
                category := "qa"
                nlines := input.size.l
                nsamps := input.size.s
                pixel_size := (input.meta.pixel_size.1, input.meta.pixel_size.2)
                pixel_units := "meters"
                app_version := K.CFMASK_APP_NAME ++ "_" ++ K.CFMASK_VERSION
                production_date := production_date
                data_type := Espa_data_type.ESPA_UINT8
                fill_value := K.CF_FILL_PIXEL
                valid_range := (0, 3)
                name := FMASK_CONFIDENCE_NAME
                long_name := FMASK_CONFIDENCE_LONG_NAME
                data_units := "quality/feature classification"
                nclass := 5
                class_values := cfmask_conf_class_values K
                file_name := sprintf_file_name
                  (scene_name_of (band_at in_meta (find_ref_index in_meta.band 0)).file_name)
                  FMASK_CONFIDENCE_NAME }] } } := by
  unfold OpenOutputConfidence at h
  simp only [RETURN_ERROR] at h
  repeat' split at h
  all_goals simp only [Prod.mk.injEq, reduceCtorEq, false_and, Option.some.injEq] at h
  obtain ⟨rfl, rfl⟩ := h
  exact ⟨by assumption, by assumption, _, _, rfl, rfl⟩

theorem sprintf_file_name_cfmask (s : String) :
    sprintf_file_name s FMASK_NAME = s ++ "_" ++ "cfmask" ++ ".img" := rfl

theorem sprintf_file_name_cfmask_conf (s : String) :
    sprintf_file_name s FMASK_CONFIDENCE_NAME = s ++ "_" ++ "cfmask_conf" ++ ".img" := rfl


/-! ## Output file name -/

/-- C1: let `b` be the reference band of the metadata (the first band named
`toa_band1` of product `toa_refl`) and `s` the part of its file name before the
first underscore, or the whole file name when it has no underscore.  Then both
builders pass `s ++ "_" ++ name ++ ".img"` (`name` being `cfmask`, respectively
`cfmask_conf`) to every call of the stream opener they make, and every
descriptor they return records that same string as the file name of its band
metadata, the band being named `name`. -/
theorem C1_output_file_name (K : Consts) (X : Extern) (pre : List Espa_band_meta_t)
    (b : Espa_band_meta_t) (post : List Espa_band_meta_t) (input : Input_t) (w0 : World)
    (s : String)
    (hpre : ∀ a ∈ pre, ¬ (a.name = "toa_band1" ∧ a.product = "toa_refl"))
    (hb : b.name = "toa_band1" ∧ b.product = "toa_refl")
    (hs : ('_' ∉ b.file_name.data ∧ s = b.file_name) ∨
          ('_' ∉ s.data ∧ ∃ rest, b.file_name = s ++ "_" ++ rest)) :
    ((∃ evs, (OpenOutput K X ⟨pre ++ b :: post⟩ input w0).2 = evs ++ w0 ∧
        ∀ f m p, Event.open_raw_binary f m p ∈ evs →
          f = s ++ "_" ++ "cfmask" ++ ".img") ∧
     (∀ o w, OpenOutput K X ⟨pre ++ b :: post⟩ input w0 = (some o, w) →
        (∃ bm, o.metadata.band = [bm] ∧ bm.name = "cfmask" ∧
          bm.file_name = s ++ "_" ++ "cfmask" ++ ".img") ∧
        ∃ w7, w = Event.open_raw_binary (s ++ "_" ++ "cfmask" ++ ".img") "w" o.fp_bin
                    :: w7)) ∧
    ((∃ evs, (OpenOutputConfidence K X ⟨pre ++ b :: post⟩ input w0).2 = evs ++ w0 ∧
        ∀ f m p, Event.open_raw_binary f m p ∈ evs →
          f = s ++ "_" ++ "cfmask_conf" ++ ".img") ∧
     (∀ o w, OpenOutputConfidence K X ⟨pre ++ b :: post⟩ input w0 = (some o, w) →
        (∃ bm, o.metadata.band = [bm] ∧ bm.name = "cfmask_conf" ∧
          bm.file_name = s ++ "_" ++ "cfmask_conf" ++ ".img") ∧
        ∃ w7, w = Event.open_raw_binary (s ++ "_" ++ "cfmask_conf" ++ ".img") "w"
                    o.fp_bin :: w7)) := by
  have hband := band_at_first_match pre b post hpre hb
  have hscene := scene_name_of_eq b.file_name s hs
  refine ⟨⟨?_, ?_⟩, ⟨?_, ?_⟩⟩
  · obtain ⟨evs, h1, _, h3, _⟩ := OpenOutput_events K X ⟨pre ++ b :: post⟩ input w0
    refine ⟨evs, h1, fun f m p hmem => ?_⟩
    have h := (h3 f m p hmem).2.2
    rw [hband, hscene, sprintf_file_name_cfmask] at h
    exact h
  · intro o w h
    obtain ⟨_, _, pd, w7, hw, ho⟩ := OpenOutput_some K X ⟨pre ++ b :: post⟩ input w0 o w h
    rw [hband, hscene, sprintf_file_name_cfmask] at hw ho
    refine ⟨⟨_, by rw [ho], rfl, rfl⟩, w7, hw⟩
  · obtain ⟨evs, h1, _, h3, _⟩ :=
      OpenOutputConfidence_events K X ⟨pre ++ b :: post⟩ input w0
    refine ⟨evs, h1, fun f m p hmem => ?_⟩
    have h := (h3 f m p hmem).2.2
    rw [hband, hscene, sprintf_file_name_cfmask_conf] at h
    exact h
  · intro o w h
    obtain ⟨_, _, pd, w7, hw, ho⟩ :=
      OpenOutputConfidence_some K X ⟨pre ++ b :: post⟩ input w0 o w h
    rw [hband, hscene, sprintf_file_name_cfmask_conf] at hw ho
    refine ⟨⟨_, by rw [ho], rfl, rfl⟩, w7, hw⟩

/-- C1 at the two file names of the specification: `LC08_L1TP_123.dat` gives
`LC08_cfmask.img`, and `noUnderscoreName.dat`, which has no underscore, gives
`noUnderscoreName.dat_cfmask.img`. -/
theorem C1_output_file_name_witness :
    ((∃ bm, out_cfmask0.metadata.band = [bm] ∧ bm.name = "cfmask" ∧
        bm.file_name = "LC08_cfmask.img") ∧
      ∃ w7, (OpenOutput K0 X_ok meta0 input0 []).2 =
        Event.open_raw_binary "LC08_cfmask.img" "w" out_cfmask0.fp_bin :: w7) ∧
    ((∃ bm, out_cfmask1.metadata.band = [bm] ∧ bm.name = "cfmask" ∧
        bm.file_name = "noUnderscoreName.dat_cfmask.img") ∧
      ∃ w7, (OpenOutput K0 X_ok ⟨[ref_band1]⟩ input0 []).2 =
        Event.open_raw_binary "noUnderscoreName.dat_cfmask.img" "w" out_cfmask1.fp_bin
          :: w7) :=
  ⟨(C1_output_file_name K0 X_ok [band0 "band1" "L1T" "LC08_L1TP_123_B1.img" "LC8DN"]
      ref_band0 [] input0 [] "LC08" (by decide) (by decide)
      (Or.inr ⟨by decide, "L1TP_123.dat", by decide⟩)).1.2 out_cfmask0 _ (by rfl),
   (C1_output_file_name K0 X_ok [] ref_band1 [] input0 [] "noUnderscoreName.dat"
      (by decide) (by decide) (Or.inl ⟨by decide, by decide⟩)).1.2 out_cfmask1 _ (by rfl)⟩

/-! ## Failure of the builders -/

/-- C2 as stated fails: for a metadata without reference band the builders
report the allocation error, not the reference-band error, when `malloc`
returns `NULL` (the allocation is checked before the bands are searched). -/
theorem C2_counterexample :
    (∀ a ∈ meta_no_ref.band, ¬ (a.name = "toa_band1" ∧ a.product = "toa_refl")) ∧
    OpenOutput K0 X_no_memory meta_no_ref input0 [] =
      (none, [Event.error "allocating Output data structure" "OpenOutput",
              Event.malloc NULL]) ∧
    OpenOutputConfidence K0 X_no_memory meta_no_ref input0 [] =
      (none, [Event.error "allocating Output data structure" "OpenOutput",
              Event.malloc NULL]) ∧
    Event.error
      "Unable to find the TOA reflectance bands in the XML file for initializing the output metadata."
      "OpenOutput" ∉ (OpenOutput K0 X_no_memory meta_no_ref input0 []).2 := by
  decide

/-- C2, amended: for every metadata whose band list has no band named
`toa_band1` of product `toa_refl`, both builders return no descriptor and call
the stream opener not at all; when the allocation of the output structure
succeeded the error they report is the reference-band error, and when it failed
it is the allocation error. -/
theorem C2_reference_band_not_found (K : Consts) (X : Extern)
    (in_meta : Espa_internal_meta_t) (input : Input_t) (w0 : World)
    (h : ∀ a ∈ in_meta.band, ¬ (a.name = "toa_band1" ∧ a.product = "toa_refl")) :
    ((OpenOutput K X in_meta input w0).1 = none ∧
      n_open (OpenOutput K X in_meta input w0).2 = n_open w0 ∧
      (X.malloc w0 ≠ NULL → (OpenOutput K X in_meta input w0).2 =
        Event.error
          "Unable to find the TOA reflectance bands in the XML file for initializing the output metadata."
          "OpenOutput" :: Event.malloc (X.malloc w0) :: w0) ∧
      (X.malloc w0 = NULL → (OpenOutput K X in_meta input w0).2 =
        Event.error "allocating Output data structure" "OpenOutput" ::
          Event.malloc (X.malloc w0) :: w0)) ∧
    ((OpenOutputConfidence K X in_meta input w0).1 = none ∧
      n_open (OpenOutputConfidence K X in_meta input w0).2 = n_open w0 ∧
      (X.malloc w0 ≠ NULL → (OpenOutputConfidence K X in_meta input w0).2 =
        Event.error
          "Unable to find the TOA reflectance bands in the XML file for initializing the output metadata."
          "OpenOutput" :: Event.malloc (X.malloc w0) :: w0) ∧
      (X.malloc w0 = NULL → (OpenOutputConfidence K X in_meta input w0).2 =
        Event.error "allocating Output data structure" "OpenOutput" ::
          Event.malloc (X.malloc w0) :: w0)) := by
  have hmsg : "Unable to find the TOA reflectance bands in the XML file"
      ++ " for initializing the output metadata." =
      "Unable to find the TOA reflectance bands in the XML file for initializing the output metadata." := by
    decide
  have href := find_ref_index_no_match in_meta.band 0 h
  unfold OpenOutput OpenOutputConfidence
  simp only [href, RETURN_ERROR, hmsg, if_true]
  by_cases hm : X.malloc w0 = NULL
  · simp [hm, n_open, is_open_call]
  · simp [hm, n_open, is_open_call]

/-- C2 on a scene whose bands match the reference band in one field only,
with memory available. -/
theorem C2_reference_band_not_found_witness :
    (∀ a ∈ meta_no_ref.band, ¬ (a.name = "toa_band1" ∧ a.product = "toa_refl")) ∧
    X_ok.malloc [] ≠ NULL ∧
    (OpenOutput K0 X_ok meta_no_ref input0 []).1 = none ∧
    (OpenOutput K0 X_ok meta_no_ref input0 []).2 =
      Event.error
        "Unable to find the TOA reflectance bands in the XML file for initializing the output metadata."
        "OpenOutput" :: Event.malloc (X_ok.malloc []) :: [] :=
  ⟨by decide, by decide,
   (C2_reference_band_not_found K0 X_ok meta_no_ref input0 [] (by decide)).1.1,
   (C2_reference_band_not_found K0 X_ok meta_no_ref input0 [] (by decide)).1.2.2.1
     (by decide)⟩

/-- C3: a builder returns a descriptor only fully opened: every descriptor
returned has `open = true`, band count 1 and holds the handle, not `NULL`, that
the stream opener returned in the last external call; and the result is `NULL`
exactly when the reference band is missing or one of the external calls of the
builder (allocations, clock, UTC conversion, date formatting, stream opener)
reported a failure. -/
theorem C3_open_or_nothing (K : Consts) (X : Extern) (in_meta : Espa_internal_meta_t)
    (input : Input_t) (w0 : World) :
    ((∀ o, (OpenOutput K X in_meta input w0).1 = some o →
        o.«open» = true ∧ o.fp_bin ≠ NULL ∧ o.nband = 1 ∧
        ∃ f w7, (OpenOutput K X in_meta input w0).2 =
          Event.open_raw_binary f "w" o.fp_bin :: w7) ∧
     (∃ evs, (OpenOutput K X in_meta input w0).2 = evs ++ w0 ∧
        ((OpenOutput K X in_meta input w0).1 = none ↔
          ((∀ a ∈ in_meta.band, ¬ (a.name = "toa_band1" ∧ a.product = "toa_refl")) ∨
           ∃ e ∈ evs, call_failed K e = true)))) ∧
    ((∀ o, (OpenOutputConfidence K X in_meta input w0).1 = some o →
        o.«open» = true ∧ o.fp_bin ≠ NULL ∧ o.nband = 1 ∧
        ∃ f w7, (OpenOutputConfidence K X in_meta input w0).2 =
          Event.open_raw_binary f "w" o.fp_bin :: w7) ∧
     (∃ evs, (OpenOutputConfidence K X in_meta input w0).2 = evs ++ w0 ∧
        ((OpenOutputConfidence K X in_meta input w0).1 = none ↔
          ((∀ a ∈ in_meta.band, ¬ (a.name = "toa_band1" ∧ a.product = "toa_refl")) ∨
           ∃ e ∈ evs, call_failed K e = true)))) := by
  refine ⟨⟨?_, ?_⟩, ⟨?_, ?_⟩⟩
  · intro o ho
    obtain ⟨_, hfp, pd, w7, hw, hval⟩ :=
      OpenOutput_some K X in_meta input w0 o _ (Prod.ext ho rfl)
    refine ⟨by rw [hval], hfp, by rw [hval], _, w7, hw⟩
  · obtain ⟨evs, h1, h2, _⟩ := OpenOutput_events K X in_meta input w0
    refine ⟨evs, h1, ?_⟩
    rw [h2, find_ref_index_eq_neg_one_iff]
  · intro o ho
    obtain ⟨_, hfp, pd, w7, hw, hval⟩ :=
      OpenOutputConfidence_some K X in_meta input w0 o _ (Prod.ext ho rfl)
    refine ⟨by rw [hval], hfp, by rw [hval], _, w7, hw⟩
  · obtain ⟨evs, h1, h2, _⟩ := OpenOutputConfidence_events K X in_meta input w0
    refine ⟨evs, h1, ?_⟩
    rw [h2, find_ref_index_eq_neg_one_iff]

/-- C3 on a scene with a reference band, every external call succeeding. -/
theorem C3_open_or_nothing_witness :
    (OpenOutput K0 X_ok meta0 input0 []).1 = some out_cfmask0 ∧
    out_cfmask0.«open» = true ∧ out_cfmask0.fp_bin ≠ NULL ∧ out_cfmask0.nband = 1 :=
  ⟨rfl,
   ((C3_open_or_nothing K0 X_ok meta0 input0 []).1.1 out_cfmask0 rfl).1,
   ((C3_open_or_nothing K0 X_ok meta0 input0 []).1.1 out_cfmask0 rfl).2.1,
   ((C3_open_or_nothing K0 X_ok meta0 input0 []).1.1 out_cfmask0 rfl).2.2.1⟩


/-! ## Writing, closing and releasing -/

/-- C4: `PutOutput` rejects a bad descriptor before any write: for the null
pointer it returns false with the report `invalid input structure`, for every
descriptor with `open = false` it returns false with the report `file not
open`; in both cases the only effect is the report, the write primitive is not
called, whatever the buffer. -/
theorem C4_put_output_rejects (K : Consts) (X : Extern) (final_mask : List uchar)
    (w : World) :
    (PutOutput K X none final_mask w =
        ((false, none), Event.error "invalid input structure" "PutOutputLine" :: w) ∧
      n_write (PutOutput K X none final_mask w).2 = n_write w) ∧
    (∀ o : Output_t, o.«open» = false →
      PutOutput K X (some o) final_mask w =
        ((false, some o), Event.error "file not open" "PutOutputLine" :: w) ∧
      n_write (PutOutput K X (some o) final_mask w).2 = n_write w) := by
  refine ⟨⟨rfl, ?_⟩, fun o ho => ?_⟩
  · simp [PutOutput, RETURN_ERROR, n_write, is_write_call]
  · simp [PutOutput, RETURN_ERROR, n_write, is_write_call, ho]

/-- C4 on a closed descriptor. -/
theorem C4_put_output_rejects_witness :
    out_closed0.«open» = false ∧
    PutOutput K0 X_ok (some out_closed0) mask0 [] =
      ((false, some out_closed0), [Event.error "file not open" "PutOutputLine"]) :=
  ⟨rfl, ((C4_put_output_rejects K0 X_ok mask0 []).2 out_closed0 rfl).1⟩

/-- C5: `CloseOutput` fails exactly when the descriptor is not open, and then
leaves it unchanged and does not call the stream-close primitive; on an open
descriptor it calls the stream-close primitive once, on the handle of the
descriptor, sets `open` to false and succeeds.  Hence on an open descriptor a
second `CloseOutput` fails, leaves the descriptor as the first one left it, and
the stream has been closed exactly once. -/
theorem C5_close_output (o : Output_t) (w : World) :
    ((CloseOutput o w).1.1 = false ↔ o.«open» = false) ∧
    (o.«open» = false →
      CloseOutput o w =
        ((false, o), Event.error "image files not open" "CloseOutput" :: w) ∧
      n_close (CloseOutput o w).2 = n_close w) ∧
    (o.«open» = true →
      CloseOutput o w =
        ((true, { o with «open» := false }), Event.close_raw_binary o.fp_bin :: w) ∧
      n_close (CloseOutput o w).2 = n_close w + 1 ∧
      (CloseOutput (CloseOutput o w).1.2 (CloseOutput o w).2).1 =
        (false, (CloseOutput o w).1.2) ∧
      n_close (CloseOutput (CloseOutput o w).1.2 (CloseOutput o w).2).2 =
        n_close w + 1) := by
  cases ho : o.«open» <;>
    simp [CloseOutput, RETURN_ERROR, n_close, is_close_call, ho]

/-- C5 on an open descriptor: the first close succeeds, the second fails. -/
theorem C5_close_output_witness :
    out_cfmask0.«open» = true ∧
    CloseOutput out_cfmask0 [] =
      ((true, out_closed0), [Event.close_raw_binary 8192]) ∧
    (CloseOutput (CloseOutput out_cfmask0 []).1.2 (CloseOutput out_cfmask0 []).2).1 =
      (false, (CloseOutput out_cfmask0 []).1.2) :=
  ⟨rfl, ((C5_close_output out_cfmask0 []).2.2 rfl).1,
   ((C5_close_output out_cfmask0 []).2.2 rfl).2.2.1⟩

/-- C6: `FreeOutput` succeeds if and only if the descriptor is not open: on an
open descriptor it fails with the report `file still open` and the descriptor
is neither released nor changed; on a descriptor that is not open it releases
the descriptor and succeeds. -/
theorem C6_free_output (o : Output_t) (w : World) :
    ((FreeOutput o w).1.1 = true ↔ o.«open» = false) ∧
    (o.«open» = true →
      FreeOutput o w =
        ((false, some o), Event.error "file still open" "FreeOutput" :: w) ∧
      n_free (FreeOutput o w).2 = n_free w) ∧
    (o.«open» = false →
      FreeOutput o w = ((true, none), Event.free o :: w) ∧
      n_free (FreeOutput o w).2 = n_free w + 1) := by
  cases ho : o.«open» <;>
    simp [FreeOutput, RETURN_ERROR, n_free, is_free_call, ho]

/-- C6 on an open and on a closed descriptor. -/
theorem C6_free_output_witness :
    (out_cfmask0.«open» = true ∧
      FreeOutput out_cfmask0 [] =
        ((false, some out_cfmask0), [Event.error "file still open" "FreeOutput"])) ∧
    (out_closed0.«open» = false ∧
      FreeOutput out_closed0 [] = ((true, none), [Event.free out_closed0])) :=
  ⟨⟨rfl, ((C6_free_output out_cfmask0 []).2.1 rfl).1⟩,
   ⟨rfl, ((C6_free_output out_closed0 []).2.2 rfl).1⟩⟩

/-- C7 as stated fails: the descriptor that `OpenOutput` returns, after a
successful `CloseOutput`, has `open = false` and still holds the handle of the
closed stream, which is not `NULL`. -/
theorem C7_counterexample :
    (OpenOutput K0 X_ok meta0 input0 []).1 = some out_cfmask0 ∧
    (CloseOutput out_cfmask0 []).1 = (true, out_closed0) ∧
    Reachable K0 X_ok out_closed0 ∧
    ¬ (out_closed0.«open» = true ↔ out_closed0.fp_bin ≠ NULL) :=
  ⟨rfl, rfl,
   Reachable.close_output out_cfmask0 []
     (Reachable.open_output meta0 input0 [] out_cfmask0 rfl),
   by decide⟩

/-- C7, amended: in every state reachable through the operations of the
module, `open = true` implies that the stream handle is not `NULL` (it holds
for the descriptors the builders return and every call of `PutOutput`,
`CloseOutput` and `FreeOutput` preserves it); `CloseOutput` never changes the
stream handle, so that after a successful `CloseOutput` the descriptor has
`open = false` and the handle it had before. -/
theorem C7_open_implies_handle (K : Consts) (X : Extern) (o : Output_t)
    (h : Reachable K X o) :
    (o.«open» = true → o.fp_bin ≠ NULL) ∧
    (∀ w, (CloseOutput o w).1.2.fp_bin = o.fp_bin ∧
      ((CloseOutput o w).1.1 = true → (CloseOutput o w).1.2.«open» = false)) := by
  constructor
  · induction h with
    | open_output in_meta input w0 o ho =>
      intro _
      exact (OpenOutput_some K X in_meta input w0 o _ (Prod.ext ho rfl)).2.1
    | open_output_confidence in_meta input w0 o ho =>
      intro _
      exact (OpenOutputConfidence_some K X in_meta input w0 o _ (Prod.ext ho rfl)).2.1
    | put_output o o1 final_mask w _ ho ih =>
      have : o1 = o := by
        unfold PutOutput at ho
        simp only [RETURN_ERROR] at ho
        repeat' split at ho
        all_goals simp only [Option.some.injEq] at ho
        all_goals exact ho.symm
      rw [this]
      exact ih
    | close_output o w _ ih =>
      intro hopen
      unfold CloseOutput at hopen
      simp only [RETURN_ERROR] at hopen
      split at hopen
      · rename_i hc
        simp only [Bool.not_eq_true'] at hc
        rw [hc] at hopen
        cases hopen
      · cases hopen
    | free_output o o1 w _ ho ih =>
      have : o1 = o := by
        unfold FreeOutput at ho
        simp only [RETURN_ERROR] at ho
        split at ho
        · simp only [Option.some.injEq] at ho
          exact ho.symm
        · cases ho
      rw [this]
      exact ih
  · intro w
    cases ho : o.«open» <;> simp [CloseOutput, RETURN_ERROR, ho]

/-- C7, amended, on the descriptor that `OpenOutput` returns. -/
theorem C7_open_implies_handle_witness :
    Reachable K0 X_ok out_cfmask0 ∧ out_cfmask0.«open» = true ∧
    out_cfmask0.fp_bin ≠ NULL :=
  ⟨Reachable.open_output meta0 input0 [] out_cfmask0 rfl, rfl,
   (C7_open_implies_handle K0 X_ok out_cfmask0
      (Reachable.open_output meta0 input0 [] out_cfmask0 rfl)).1 rfl⟩

/-- C8: on an open descriptor `PutOutput` calls the write primitive exactly
once, on the handle of the descriptor, with the lines and samples of the
descriptor, element size 1 and the buffer of the caller; it returns true,
without any other effect, if that call reports success, and otherwise returns
false after reporting the error, without a second write. -/
theorem C8_single_write (K : Consts) (X : Extern) (o : Output_t)
    (final_mask : List uchar) (w : World) (h : o.«open» = true) :
    (X.write_raw_binary w o.fp_bin o.size.l o.size.s 1 final_mask = K.SUCCESS →
      PutOutput K X (some o) final_mask w =
        ((true, some o),
          Event.write_raw_binary o.fp_bin o.size.l o.size.s 1 final_mask K.SUCCESS :: w)) ∧
    (X.write_raw_binary w o.fp_bin o.size.l o.size.s 1 final_mask ≠ K.SUCCESS →
      PutOutput K X (some o) final_mask w =
        ((false, some o),
          Event.error "writing output line" "PutOutput" ::
          Event.write_raw_binary o.fp_bin o.size.l o.size.s 1 final_mask
            (X.write_raw_binary w o.fp_bin o.size.l o.size.s 1 final_mask) :: w)) ∧
    n_write (PutOutput K X (some o) final_mask w).2 = n_write w + 1 ∧
    ((PutOutput K X (some o) final_mask w).1.1 = true ↔
      X.write_raw_binary w o.fp_bin o.size.l o.size.s 1 final_mask = K.SUCCESS) := by
  by_cases hst : X.write_raw_binary w o.fp_bin o.size.l o.size.s 1 final_mask = K.SUCCESS
  · simp [PutOutput, RETURN_ERROR, n_write, is_write_call, h, hst]
  · simp [PutOutput, RETURN_ERROR, n_write, is_write_call, h, hst]

/-- C8 on an open descriptor, with a write that succeeds and with a write
that fails. -/
theorem C8_single_write_witness :
    out_cfmask0.«open» = true ∧
    PutOutput K0 X_ok (some out_cfmask0) mask0 [] =
      ((true, some out_cfmask0), [Event.write_raw_binary 8192 2 3 1 mask0 0]) ∧
    PutOutput K0 X_write_fails (some out_cfmask0) mask0 [] =
      ((false, some out_cfmask0),
        [Event.error "writing output line" "PutOutput",
         Event.write_raw_binary 8192 2 3 1 mask0 1]) :=
  ⟨rfl, (C8_single_write K0 X_ok out_cfmask0 mask0 [] rfl).1 rfl,
   (C8_single_write K0 X_write_fails out_cfmask0 mask0 [] rfl).2.1 (by decide)⟩

/-- C9: `PutOutput` never modifies the descriptor: whatever the pointer, the
buffer and the outcome of the call, the structure after the call is the
structure before the call; in particular the open flag, the stream handle, the
grid size, the band count and the band metadata are the same. -/
theorem C9_put_output_frame (K : Consts) (X : Extern) (final_mask : List uchar)
    (w : World) :
    (∀ output : Option Output_t, (PutOutput K X output final_mask w).1.2 = output) ∧
    (∀ o : Output_t, ∃ o1, (PutOutput K X (some o) final_mask w).1.2 = some o1 ∧
      o1.«open» = o.«open» ∧ o1.fp_bin = o.fp_bin ∧ o1.size = o.size ∧
      o1.nband = o.nband ∧ o1.metadata = o.metadata) := by
  have key : ∀ output : Option Output_t,
      (PutOutput K X output final_mask w).1.2 = output := by
    intro output
    unfold PutOutput
    simp only [RETURN_ERROR]
    repeat' split
    all_goals rfl
  exact ⟨key, fun o => ⟨o, key (some o), rfl, rfl, rfl, rfl, rfl⟩⟩

/-- C10: every descriptor returned by `OpenOutput` has one band, named `cfmask`,
of data type unsigned 8-bit, with valid range `[0, 4]` and the six class
entries 0 clear, 1 water, 2 cloud_shadow, 3 snow, 4 cloud, fill; every
descriptor returned by `OpenOutputConfidence` has one band, named
`cfmask_conf`, with valid range `[0, 3]` and the five class entries 0, 1, 2, 3,
fill; in both the last entry is described `fill` and its code is the fill value
of the band, the constant `CF_FILL_PIXEL`. -/
theorem C10_variant_tables (K : Consts) (X : Extern) (in_meta : Espa_internal_meta_t)
    (input : Input_t) (w0 : World) :
    (∀ o, (OpenOutput K X in_meta input w0).1 = some o →
      ∃ bm, o.metadata.band = [bm] ∧ bm.name = "cfmask" ∧
        bm.data_type = Espa_data_type.ESPA_UINT8 ∧ bm.valid_range = (0, 4) ∧
        bm.nclass = 6 ∧ bm.class_values.length = 6 ∧
        bm.class_values = [⟨0, "clear"⟩, ⟨1, "water"⟩, ⟨2, "cloud_shadow"⟩,
          ⟨3, "snow"⟩, ⟨4, "cloud"⟩, ⟨K.CF_FILL_PIXEL, "fill"⟩] ∧
        bm.class_values.getLast? = some ⟨bm.fill_value, "fill"⟩ ∧
        bm.fill_value = K.CF_FILL_PIXEL) ∧
    (∀ o, (OpenOutputConfidence K X in_meta input w0).1 = some o →
      ∃ bm, o.metadata.band = [bm] ∧ bm.name = "cfmask_conf" ∧
        bm.data_type = Espa_data_type.ESPA_UINT8 ∧ bm.valid_range = (0, 3) ∧
        bm.nclass = 5 ∧ bm.class_values.length = 5 ∧
        bm.class_values = [⟨0, "None"⟩,
          ⟨1, "less than or equal to 12.5 Percent Cloud Confidence"⟩,
          ⟨2, "greater than 12.5 and less than or equal to 22.5 Percent Cloud Confidence"⟩,
          ⟨3, "greater than 22.5 Percent Cloud Confidence"⟩,
          ⟨K.CF_FILL_PIXEL, "fill"⟩] ∧
        bm.class_values.getLast? = some ⟨bm.fill_value, "fill"⟩ ∧
        bm.fill_value = K.CF_FILL_PIXEL) := by
  constructor
  · intro o ho
    obtain ⟨_, _, pd, w7, _, hval⟩ :=
      OpenOutput_some K X in_meta input w0 o _ (Prod.ext ho rfl)
    rw [hval]
    exact ⟨_, rfl, rfl, rfl, rfl, rfl, rfl, rfl, rfl, rfl⟩
  · intro o ho
    obtain ⟨_, _, pd, w7, _, hval⟩ :=
      OpenOutputConfidence_some K X in_meta input w0 o _ (Prod.ext ho rfl)
    rw [hval]
    exact ⟨_, rfl, rfl, rfl, rfl, rfl, rfl, rfl, rfl, rfl⟩

/-- C10 on the descriptors built for a scene with a reference band. -/
theorem C10_variant_tables_witness :
    ((OpenOutput K0 X_ok meta0 input0 []).1 = some out_cfmask0 ∧
      ∃ bm, out_cfmask0.metadata.band = [bm] ∧ bm.name = "cfmask" ∧
        bm.valid_range = (0, 4) ∧ bm.class_values.length = 6) ∧
    ((OpenOutputConfidence K0 X_ok meta0 input0 []).1 = some out_conf0 ∧
      ∃ bm, out_conf0.metadata.band = [bm] ∧ bm.name = "cfmask_conf" ∧
        bm.valid_range = (0, 3) ∧ bm.class_values.length = 5) := by
  refine ⟨⟨rfl, ?_⟩, ⟨rfl, ?_⟩⟩
  · obtain ⟨bm, h1, h2, _, h4, _, h6, _⟩ :=
      (C10_variant_tables K0 X_ok meta0 input0 []).1 out_cfmask0 rfl
    exact ⟨bm, h1, h2, h4, h6⟩
  · obtain ⟨bm, h1, h2, _, h4, _, h6, _⟩ :=
      (C10_variant_tables K0 X_ok meta0 input0 []).2 out_conf0 rfl
    exact ⟨bm, h1, h2, h4, h6⟩

/-! ## Geometry, short name and reference band -/

/-- C11: every descriptor returned by a builder has the lines and samples of
the input grid, band metadata whose lines and samples are those of the
descriptor, whose pixel size is the pixel size of the input and whose pixel
units are `meters`; `PutOutput` leaves the whole structure as it is and
`CloseOutput` leaves the grid size and the band metadata as they are. -/
theorem C11_geometry (K : Consts) (X : Extern) (in_meta : Espa_internal_meta_t)
    (input : Input_t) (w0 : World) :
    (∀ o, (OpenOutput K X in_meta input w0).1 = some o ∨
          (OpenOutputConfidence K X in_meta input w0).1 = some o →
      (o.size.l = input.size.l ∧ o.size.s = input.size.s ∧
        ∃ bm, o.metadata.band = [bm] ∧ bm.nlines = o.size.l ∧ bm.nsamps = o.size.s ∧
          bm.pixel_size.1 = input.meta.pixel_size.1 ∧
          bm.pixel_size.2 = input.meta.pixel_size.2 ∧ bm.pixel_units = "meters") ∧
      (∀ final_mask w, (PutOutput K X (some o) final_mask w).1.2 = some o) ∧
      (∀ w, (CloseOutput o w).1.2.size = o.size ∧
        (CloseOutput o w).1.2.metadata = o.metadata)) := by
  intro o ho
  refine ⟨?_, ?_, ?_⟩
  · rcases ho with ho | ho
    · obtain ⟨_, _, pd, w7, _, hval⟩ :=
        OpenOutput_some K X in_meta input w0 o _ (Prod.ext ho rfl)
      rw [hval]
      exact ⟨rfl, rfl, _, rfl, rfl, rfl, rfl, rfl, rfl⟩
    · obtain ⟨_, _, pd, w7, _, hval⟩ :=
        OpenOutputConfidence_some K X in_meta input w0 o _ (Prod.ext ho rfl)
      rw [hval]
      exact ⟨rfl, rfl, _, rfl, rfl, rfl, rfl, rfl, rfl⟩
  · intro final_mask w
    unfold PutOutput
    simp only [RETURN_ERROR]
    repeat' split
    all_goals rfl
  · intro w
    cases hopen : o.«open» <;> simp [CloseOutput, RETURN_ERROR, hopen]

/-- C11 on the descriptor built for `meta0` and the grid of two lines and
three samples. -/
theorem C11_geometry_witness :
    (OpenOutput K0 X_ok meta0 input0 []).1 = some out_cfmask0 ∧
    out_cfmask0.size.l = 2 ∧ out_cfmask0.size.s = 3 ∧
    (CloseOutput out_cfmask0 []).1.2.size = out_cfmask0.size :=
  ⟨rfl,
   ((C11_geometry K0 X_ok meta0 input0 [] out_cfmask0 (Or.inl rfl)).1).1,
   ((C11_geometry K0 X_ok meta0 input0 [] out_cfmask0 (Or.inl rfl)).1).2.1,
   ((C11_geometry K0 X_ok meta0 input0 [] out_cfmask0 (Or.inl rfl)).2.2 []).1⟩

/-- C12 as stated fails: for the reference short name `AB`, of two characters,
the short name built is `ABCFMASK`, of length 8 and not 3 + 6. -/
theorem C12_counterexample :
    ref_band_short.short_name = "AB" ∧
    (OpenOutput K0 X_ok ⟨[ref_band_short]⟩ input0 []).1.map
        (fun o => o.metadata.band.map (fun bm => bm.short_name)) = some ["ABCFMASK"] ∧
    "ABCFMASK".length ≠ 3 + "CFMASK".length ∧
    (OpenOutputConfidence K0 X_ok ⟨[ref_band_short]⟩ input0 []).1.map
        (fun o => o.metadata.band.map (fun bm => bm.short_name)) =
      some ["ABCFMASK_CONF"] ∧
    "ABCFMASK_CONF".length ≠ 3 + "CFMASK_CONF".length := by
  decide

/-- C12, amended: for a reference band of short name `s`, the short name of a
returned descriptor is the first three characters of `s`, or all of `s` when it
has fewer than three, followed by `CFMASK` (`OpenOutput`), respectively
`CFMASK_CONF` (`OpenOutputConfidence`); its length is the lesser of 3 and the
length of `s`, plus the length of the suffix, which is 3 plus the length of the
suffix when `s` has at least three characters. -/
theorem C12_short_name (K : Consts) (X : Extern) (pre : List Espa_band_meta_t)
    (b : Espa_band_meta_t) (post : List Espa_band_meta_t) (input : Input_t) (w0 : World)
    (hpre : ∀ a ∈ pre, ¬ (a.name = "toa_band1" ∧ a.product = "toa_refl"))
    (hb : b.name = "toa_band1" ∧ b.product = "toa_refl") :
    (∀ o, (OpenOutput K X ⟨pre ++ b :: post⟩ input w0).1 = some o →
      ∃ bm, o.metadata.band = [bm] ∧
        bm.short_name = String.mk (b.short_name.data.take 3) ++ "CFMASK" ∧
        bm.short_name.length = min 3 b.short_name.length + "CFMASK".length ∧
        (3 ≤ b.short_name.length → bm.short_name.length = 3 + "CFMASK".length)) ∧
    (∀ o, (OpenOutputConfidence K X ⟨pre ++ b :: post⟩ input w0).1 = some o →
      ∃ bm, o.metadata.band = [bm] ∧
        bm.short_name = String.mk (b.short_name.data.take 3) ++ "CFMASK_CONF" ∧
        bm.short_name.length = min 3 b.short_name.length + "CFMASK_CONF".length ∧
        (3 ≤ b.short_name.length →
          bm.short_name.length = 3 + "CFMASK_CONF".length)) := by
  have hband := band_at_first_match pre b post hpre hb
  have hlen : ∀ suffix : String,
      (String.mk (b.short_name.data.take 3) ++ suffix).length =
        min 3 b.short_name.length + suffix.length := by
    intro suffix
    rw [String.length_append]
    show (b.short_name.data.take 3).length + _ = _
    rw [List.length_take]
    rfl
  constructor
  · intro o ho
    obtain ⟨_, _, pd, w7, _, hval⟩ :=
      OpenOutput_some K X ⟨pre ++ b :: post⟩ input w0 o _ (Prod.ext ho rfl)
    rw [hband] at hval
    rw [hval]
    refine ⟨_, rfl, rfl, hlen "CFMASK", fun h3 => ?_⟩
    have := hlen "CFMASK"
    rw [Nat.min_eq_left h3] at this
    exact this
  · intro o ho
    obtain ⟨_, _, pd, w7, _, hval⟩ :=
      OpenOutputConfidence_some K X ⟨pre ++ b :: post⟩ input w0 o _ (Prod.ext ho rfl)
    rw [hband] at hval
    rw [hval]
    refine ⟨_, rfl, rfl, hlen "CFMASK_CONF", fun h3 => ?_⟩
    have := hlen "CFMASK_CONF"
    rw [Nat.min_eq_left h3] at this
    exact this

/-- C12, amended, on the reference band of `meta0`, of short name `LC8TOA`. -/
theorem C12_short_name_witness :
    (OpenOutput K0 X_ok meta0 input0 []).1 = some out_cfmask0 ∧
    ∃ bm, out_cfmask0.metadata.band = [bm] ∧
      bm.short_name = String.mk ("LC8TOA".data.take 3) ++ "CFMASK" ∧
      bm.short_name.length = min 3 "LC8TOA".length + "CFMASK".length ∧
      (3 ≤ "LC8TOA".length → bm.short_name.length = 3 + "CFMASK".length) :=
  ⟨rfl,
   (C12_short_name K0 X_ok [band0 "band1" "L1T" "LC08_L1TP_123_B1.img" "LC8DN"]
      ref_band0 [] input0 [] (by decide) (by decide)).1 out_cfmask0 rfl⟩

/-- C13 as stated fails: with a reference band record of pixel size 15 and an
input structure of pixel size 30, the descriptor has pixel size 30, not that of
the reference band record. -/
theorem C13_counterexample :
    ref_band_15.name = "toa_band1" ∧ ref_band_15.product = "toa_refl" ∧
    ref_band_15.pixel_size = (⟨15⟩, ⟨15⟩) ∧
    (OpenOutput K0 X_ok ⟨[ref_band_15]⟩ input0 []).1.map
        (fun o => o.metadata.band.map (fun bm => bm.pixel_size)) =
      some [(⟨30⟩, ⟨30⟩)] ∧
    (OpenOutput K0 X_ok ⟨[ref_band_15]⟩ input0 []).1.map
        (fun o => o.metadata.band.map (fun bm => bm.pixel_size)) ≠
      some [ref_band_15.pixel_size] ∧
    (OpenOutputConfidence K0 X_ok ⟨[ref_band_15]⟩ input0 []).1.map
        (fun o => o.metadata.band.map (fun bm => bm.pixel_size)) ≠
      some [ref_band_15.pixel_size] := by
  decide

/-- C13, amended: the reference band, the first band in order named
`toa_band1` of product `toa_refl`, gives the short-name prefix (from its short
name) and the scene identifier of the file name (from its file name) of every
returned descriptor; the pixel size of the descriptor is the pixel size of the
input structure, whatever the pixel size of the reference band record. -/
theorem C13_reference_band_template (K : Consts) (X : Extern)
    (pre : List Espa_band_meta_t) (b : Espa_band_meta_t) (post : List Espa_band_meta_t)
    (input : Input_t) (w0 : World)
    (hpre : ∀ a ∈ pre, ¬ (a.name = "toa_band1" ∧ a.product = "toa_refl"))
    (hb : b.name = "toa_band1" ∧ b.product = "toa_refl") :
    (∀ o, (OpenOutput K X ⟨pre ++ b :: post⟩ input w0).1 = some o →
      ∃ bm, o.metadata.band = [bm] ∧ bm.pixel_size = input.meta.pixel_size ∧
        bm.short_name = String.mk (b.short_name.data.take 3) ++ "CFMASK" ∧
        bm.file_name =
          String.mk (b.file_name.data.takeWhile (fun c => c != '_')) ++ "_" ++ "cfmask"
            ++ ".img") ∧
    (∀ o, (OpenOutputConfidence K X ⟨pre ++ b :: post⟩ input w0).1 = some o →
      ∃ bm, o.metadata.band = [bm] ∧ bm.pixel_size = input.meta.pixel_size ∧
        bm.short_name = String.mk (b.short_name.data.take 3) ++ "CFMASK_CONF" ∧
        bm.file_name =
          String.mk (b.file_name.data.takeWhile (fun c => c != '_')) ++ "_"
            ++ "cfmask_conf" ++ ".img") := by
  have hband := band_at_first_match pre b post hpre hb
  constructor
  · intro o ho
    obtain ⟨_, _, pd, w7, _, hval⟩ :=
      OpenOutput_some K X ⟨pre ++ b :: post⟩ input w0 o _ (Prod.ext ho rfl)
    rw [hband] at hval
    rw [hval]
    exact ⟨_, rfl, rfl, rfl, rfl⟩
  · intro o ho
    obtain ⟨_, _, pd, w7, _, hval⟩ :=
      OpenOutputConfidence_some K X ⟨pre ++ b :: post⟩ input w0 o _ (Prod.ext ho rfl)
    rw [hband] at hval
    rw [hval]
    exact ⟨_, rfl, rfl, rfl, rfl⟩

/-- C13, amended, on a reference band record of pixel size 15 and an input
structure of pixel size 30. -/
theorem C13_reference_band_template_witness :
    (OpenOutput K0 X_ok ⟨[] ++ ref_band_15 :: []⟩ input0 []).1 = some out_cfmask0 ∧
    ∃ bm, out_cfmask0.metadata.band = [bm] ∧ bm.pixel_size = input0.meta.pixel_size ∧
      bm.short_name = String.mk (ref_band_15.short_name.data.take 3) ++ "CFMASK" ∧
      bm.file_name =
        String.mk (ref_band_15.file_name.data.takeWhile (fun c => c != '_')) ++ "_"
          ++ "cfmask" ++ ".img" :=
  ⟨rfl,
   (C13_reference_band_template K0 X_ok [] ref_band_15 [] input0 []
      (by decide) (by decide)).1 out_cfmask0 rfl⟩

/-! ## Lifecycle -/

theorem countP_append_of_none (p : Event → Bool) (evs w0 : World)
    (h : ∀ e ∈ evs, p e = false) : (evs ++ w0).countP p = w0.countP p := by
  rw [List.countP_append]
  have h0 : evs.countP p = 0 := by
    rw [List.countP_eq_zero]
    intro e he
    rw [h e he]
    exact Bool.false_ne_true
  omega

/-- C14: whenever `OpenOutput` or `OpenOutputConfidence` returns a descriptor
and the write of the buffer succeeds, the calls `PutOutput`, `CloseOutput` and
`FreeOutput` made in that order all return true; since the state before the
builder the write primitive has been called once, the stream-close primitive
once (on the handle the builder stored) and the descriptor has been released
once, by the last call. -/
theorem C14_happy_path (K : Consts) (X : Extern) (in_meta : Espa_internal_meta_t)
    (input : Input_t) (w0 : World) (o : Output_t) (w1 : World)
    (final_mask : List uchar)
    (hopen : OpenOutput K X in_meta input w0 = (some o, w1) ∨
      OpenOutputConfidence K X in_meta input w0 = (some o, w1))
    (hwrite : X.write_raw_binary w1 o.fp_bin o.size.l o.size.s 1 final_mask = K.SUCCESS) :
    ∃ w2 o3 w3 w4,
      PutOutput K X (some o) final_mask w1 = ((true, some o), w2) ∧
      CloseOutput o w2 = ((true, o3), w3) ∧
      w3 = Event.close_raw_binary o.fp_bin :: w2 ∧
      FreeOutput o3 w3 = ((true, none), w4) ∧
      w4 = Event.free o3 :: w3 ∧
      n_write w4 = n_write w0 + 1 ∧ n_close w4 = n_close w0 + 1 ∧
      n_free w4 = n_free w0 + 1 := by
  have hopen_true : o.«open» = true := by
    rcases hopen with h | h
    · obtain ⟨_, _, pd, w7, _, hval⟩ := OpenOutput_some K X in_meta input w0 o w1 h
      rw [hval]
    · obtain ⟨_, _, pd, w7, _, hval⟩ :=
        OpenOutputConfidence_some K X in_meta input w0 o w1 h
      rw [hval]
  have hcounts : n_write w1 = n_write w0 ∧ n_close w1 = n_close w0 ∧
      n_free w1 = n_free w0 := by
    rcases hopen with h | h
    · obtain ⟨evs, h1, _, _, _, h4⟩ := OpenOutput_events K X in_meta input w0
      rw [h] at h1
      simp only at h1
      subst h1
      exact ⟨countP_append_of_none _ _ _ (fun e he => (h4 e he).1),
        countP_append_of_none _ _ _ (fun e he => (h4 e he).2.1),
        countP_append_of_none _ _ _ (fun e he => (h4 e he).2.2)⟩
    · obtain ⟨evs, h1, _, _, _, h4⟩ := OpenOutputConfidence_events K X in_meta input w0
      rw [h] at h1
      simp only at h1
      subst h1
      exact ⟨countP_append_of_none _ _ _ (fun e he => (h4 e he).1),
        countP_append_of_none _ _ _ (fun e he => (h4 e he).2.1),
        countP_append_of_none _ _ _ (fun e he => (h4 e he).2.2)⟩
  obtain ⟨hw, hc, hf⟩ := hcounts
  refine ⟨Event.write_raw_binary o.fp_bin o.size.l o.size.s 1 final_mask K.SUCCESS :: w1,
    { o with «open» := false }, _, _, ?_, ?_, rfl, ?_, rfl, ?_, ?_, ?_⟩
  · simp [PutOutput, RETURN_ERROR, hopen_true, hwrite]
  · simp [CloseOutput, RETURN_ERROR, hopen_true]
  · simp [FreeOutput, RETURN_ERROR]
  · simp [n_write, is_write_call] at hw ⊢
    exact hw
  · simp [n_close, is_close_call] at hc ⊢
    exact hc
  · simp [n_free, is_free_call] at hf ⊢
    exact hf

/-- C14 on the scene `meta0`: the world after the four calls. -/
theorem C14_happy_path_witness :
    OpenOutput K0 X_ok meta0 input0 [] =
      (some out_cfmask0, (OpenOutput K0 X_ok meta0 input0 []).2) ∧
    ∃ w2 o3 w3 w4,
      PutOutput K0 X_ok (some out_cfmask0) mask0 (OpenOutput K0 X_ok meta0 input0 []).2 =
        ((true, some out_cfmask0), w2) ∧
      CloseOutput out_cfmask0 w2 = ((true, o3), w3) ∧
      w3 = Event.close_raw_binary out_cfmask0.fp_bin :: w2 ∧
      FreeOutput o3 w3 = ((true, none), w4) ∧
      w4 = Event.free o3 :: w3 ∧
      n_write w4 = n_write [] + 1 ∧ n_close w4 = n_close [] + 1 ∧
      n_free w4 = n_free [] + 1 :=
  ⟨rfl, C14_happy_path K0 X_ok meta0 input0 [] out_cfmask0 _ mask0 (Or.inl rfl) rfl⟩

/-- C16: no call of `PutOutput` or `CloseOutput` sets `open` to true: after any
finite sequence of such calls the descriptor is open only if it was open
before; and on a descriptor with `open = false` every call of the sequence
fails, the descriptor is left as it was, and the write and stream-close
primitives are not called. -/
theorem C16_closed_stays_closed (K : Consts) (X : Extern) (ops : List Op) :
    (∀ (o : Output_t) (w : World),
      (run_ops K X ops o w).2.1.«open» = true → o.«open» = true) ∧
    (∀ (o : Output_t) (w : World), o.«open» = false →
      (run_ops K X ops o w).1 = List.replicate ops.length false ∧
      (run_ops K X ops o w).2.1 = o ∧
      n_write (run_ops K X ops o w).2.2 = n_write w ∧
      n_close (run_ops K X ops o w).2.2 = n_close w) := by
  have hput : ∀ (o : Output_t) (final_mask : List uchar) (w : World),
      (PutOutput K X (some o) final_mask w).1.2 = some o := by
    intro o final_mask w
    unfold PutOutput
    simp only [RETURN_ERROR]
    repeat' split
    all_goals rfl
  constructor
  · induction ops with
    | nil => intro o w h; exact h
    | cons op rest ih =>
      intro o w h
      cases op with
      | put final_mask =>
        simp only [run_ops, hput, Option.getD_some] at h
        exact ih o _ h
      | close =>
        simp only [run_ops] at h
        have h1 := ih _ _ h
        cases ho : o.«open»
        · simp [CloseOutput, RETURN_ERROR, ho] at h1
        · rfl
  · induction ops with
    | nil => intro o w _; exact ⟨rfl, rfl, rfl, rfl⟩
    | cons op rest ih =>
      intro o w ho
      cases op with
      | put final_mask =>
        have hr : PutOutput K X (some o) final_mask w =
            ((false, some o), Event.error "file not open" "PutOutputLine" :: w) := by
          simp [PutOutput, RETURN_ERROR, ho]
        obtain ⟨h1, h2, h3, h4⟩ := ih o (Event.error "file not open" "PutOutputLine" :: w) ho
        simp only [run_ops, hr, Option.getD_some, List.length_cons, List.replicate_succ]
        refine ⟨by rw [h1], h2, ?_, ?_⟩
        · rw [h3]; simp [n_write, is_write_call]
        · rw [h4]; simp [n_close, is_close_call]
      | close =>
        have hr : CloseOutput o w =
            ((false, o), Event.error "image files not open" "CloseOutput" :: w) := by
          simp [CloseOutput, RETURN_ERROR, ho]
        obtain ⟨h1, h2, h3, h4⟩ :=
          ih o (Event.error "image files not open" "CloseOutput" :: w) ho
        simp only [run_ops, hr, List.length_cons, List.replicate_succ]
        refine ⟨by rw [h1], h2, ?_, ?_⟩
        · rw [h3]; simp [n_write, is_write_call]
        · rw [h4]; simp [n_close, is_close_call]

/-- C16 on a closed descriptor and the calls put, close, put. -/
theorem C16_closed_stays_closed_witness :
    out_closed0.«open» = false ∧
    (run_ops K0 X_ok [Op.put mask0, Op.close, Op.put mask0] out_closed0 []).1 =
      [false, false, false] ∧
    (run_ops K0 X_ok [Op.put mask0, Op.close, Op.put mask0] out_closed0 []).2.1 =
      out_closed0 :=
  ⟨rfl,
   ((C16_closed_stays_closed K0 X_ok [Op.put mask0, Op.close, Op.put mask0]).2
      out_closed0 [] rfl).1,
   ((C16_closed_stays_closed K0 X_ok [Op.put mask0, Op.close, Op.put mask0]).2
      out_closed0 [] rfl).2.1⟩

/-! ## Class tables -/

/-- C15: for the 8-bit fill sentinel of the program, outside the valid range
`[0, 4]`, the class codes of every descriptor built by `OpenOutput` or
`OpenOutputConfidence` are strictly ascending, the fill value occurs among them
exactly once, as the last code, and the codes before it are 0, 1, 2, 3, 4
(respectively 0, 1, 2, 3), which are exactly the integers of the valid range of
the band. -/
theorem C15_class_codes (K : Consts) (X : Extern) (in_meta : Espa_internal_meta_t)
    (input : Input_t) (w0 : World)
    (h8 : 0 ≤ K.CF_FILL_PIXEL ∧ K.CF_FILL_PIXEL ≤ 255)
    (hout : ¬ (0 ≤ K.CF_FILL_PIXEL ∧ K.CF_FILL_PIXEL ≤ 4)) :
    (∀ o, (OpenOutput K X in_meta input w0).1 = some o →
      ∃ bm, o.metadata.band = [bm] ∧
        (bm.class_values.map (fun e => e.«class»)).count bm.fill_value = 1 ∧
        (bm.class_values.map (fun e => e.«class»)).getLast? = some bm.fill_value ∧
        (bm.class_values.map (fun e => e.«class»)).Pairwise (fun a c => a < c) ∧
        (bm.class_values.map (fun e => e.«class»)).dropLast = [0, 1, 2, 3, 4] ∧
        (∀ c : Int, c ∈ (bm.class_values.map (fun e => e.«class»)).dropLast ↔
          bm.valid_range.1 ≤ c ∧ c ≤ bm.valid_range.2)) ∧
    (∀ o, (OpenOutputConfidence K X in_meta input w0).1 = some o →
      ∃ bm, o.metadata.band = [bm] ∧
        (bm.class_values.map (fun e => e.«class»)).count bm.fill_value = 1 ∧
        (bm.class_values.map (fun e => e.«class»)).getLast? = some bm.fill_value ∧
        (bm.class_values.map (fun e => e.«class»)).Pairwise (fun a c => a < c) ∧
        (bm.class_values.map (fun e => e.«class»)).dropLast = [0, 1, 2, 3] ∧
        (∀ c : Int, c ∈ (bm.class_values.map (fun e => e.«class»)).dropLast ↔
          bm.valid_range.1 ≤ c ∧ c ≤ bm.valid_range.2)) := by
  have hfill : 4 < K.CF_FILL_PIXEL := by omega
  have hcodes : (cfmask_class_values K).map (fun e => e.«class») =
      [0, 1, 2, 3, 4, K.CF_FILL_PIXEL] := rfl
  have hcodes_conf : (cfmask_conf_class_values K).map (fun e => e.«class») =
      [0, 1, 2, 3, K.CF_FILL_PIXEL] := rfl
  constructor
  · intro o ho
    obtain ⟨_, _, pd, w7, _, hval⟩ :=
      OpenOutput_some K X in_meta input w0 o _ (Prod.ext ho rfl)
    rw [hval]
    refine ⟨_, rfl, ?_⟩
    simp only [hcodes]
    refine ⟨?_, rfl, ?_, rfl, ?_⟩
    · have h0 : (0 : Int) ≠ K.CF_FILL_PIXEL := by omega
      have h1 : (1 : Int) ≠ K.CF_FILL_PIXEL := by omega
      have h2 : (2 : Int) ≠ K.CF_FILL_PIXEL := by omega
      have h3 : (3 : Int) ≠ K.CF_FILL_PIXEL := by omega
      have h4 : (4 : Int) ≠ K.CF_FILL_PIXEL := by omega
      simp [List.count_cons, h0, h1, h2, h3, h4]
    · simp only [List.pairwise_cons, List.mem_cons, List.mem_singleton, List.not_mem_nil,
        forall_eq_or_imp, forall_eq, List.Pairwise.nil, and_true, false_imp_iff,
        implies_true]
      omega
    · intro c
      simp only [List.dropLast, List.mem_cons, List.mem_singleton, List.not_mem_nil,
        or_false]
      omega
  · intro o ho
    obtain ⟨_, _, pd, w7, _, hval⟩ :=
      OpenOutputConfidence_some K X in_meta input w0 o _ (Prod.ext ho rfl)
    rw [hval]
    refine ⟨_, rfl, ?_⟩
    simp only [hcodes_conf]
    refine ⟨?_, rfl, ?_, rfl, ?_⟩
    · have h0 : (0 : Int) ≠ K.CF_FILL_PIXEL := by omega
      have h1 : (1 : Int) ≠ K.CF_FILL_PIXEL := by omega
      have h2 : (2 : Int) ≠ K.CF_FILL_PIXEL := by omega
      have h3 : (3 : Int) ≠ K.CF_FILL_PIXEL := by omega
      simp [List.count_cons, h0, h1, h2, h3]
    · simp only [List.pairwise_cons, List.mem_cons, List.mem_singleton, List.not_mem_nil,
        forall_eq_or_imp, forall_eq, List.Pairwise.nil, and_true, false_imp_iff,
        implies_true]
      omega
    · intro c
      simp only [List.dropLast, List.mem_cons, List.mem_singleton, List.not_mem_nil,
        or_false]
      omega

/-- C15 for the fill sentinel 255. -/
theorem C15_class_codes_witness :
    (0 ≤ K0.CF_FILL_PIXEL ∧ K0.CF_FILL_PIXEL ≤ 255) ∧
    ¬ (0 ≤ K0.CF_FILL_PIXEL ∧ K0.CF_FILL_PIXEL ≤ 4) ∧
    (OpenOutput K0 X_ok meta0 input0 []).1 = some out_cfmask0 ∧
    ∃ bm, out_cfmask0.metadata.band = [bm] ∧
      (bm.class_values.map (fun e => e.«class»)).count bm.fill_value = 1 ∧
      (bm.class_values.map (fun e => e.«class»)).getLast? = some bm.fill_value ∧
      (bm.class_values.map (fun e => e.«class»)).Pairwise (fun a c => a < c) ∧
      (bm.class_values.map (fun e => e.«class»)).dropLast = [0, 1, 2, 3, 4] ∧
      (∀ c : Int, c ∈ (bm.class_values.map (fun e => e.«class»)).dropLast ↔
        bm.valid_range.1 ≤ c ∧ c ≤ bm.valid_range.2) :=
  ⟨by decide, by decide, rfl,
   (C15_class_codes K0 X_ok meta0 input0 [] (by decide) (by decide)).1 out_cfmask0 rfl⟩

/-! ## The two builders side by side -/

/-- C17: the two builders differ only in their variant values.  Run on the
same metadata, input, history, clock and outside world, if the class
allocations of the two runs had the same outcome and so had their calls of the
stream opener (both succeeded or both failed), then one builder returns `NULL`
exactly when the other does, and then both report the same error.  Whenever
both return a descriptor, the descriptors agree on the open flag, the band
count, the grid size and all band metadata but the short-name suffix, the name,
the long name, the band name inside the file name, the upper valid bound and
the class table; the stream handle of each is the one its own call of the
stream opener returned. -/
theorem C17_same_builder (K : Consts) (X : Extern) (in_meta : Espa_internal_meta_t)
    (input : Input_t) (w0 : World) :
    (∀ evs evsc : List Event,
      (OpenOutput K X in_meta input w0).2 = evs ++ w0 →
      (OpenOutputConfidence K X in_meta input w0).2 = evsc ++ w0 →
      (∀ n st nc stc, Event.allocate_class_metadata n st ∈ evs →
        Event.allocate_class_metadata nc stc ∈ evsc →
        (st = K.SUCCESS ↔ stc = K.SUCCESS)) →
      (∀ f m p fc mc pc, Event.open_raw_binary f m p ∈ evs →
        Event.open_raw_binary fc mc pc ∈ evsc → (p = NULL ↔ pc = NULL)) →
      ((OpenOutput K X in_meta input w0).1 = none ↔
        (OpenOutputConfidence K X in_meta input w0).1 = none) ∧
      ((OpenOutput K X in_meta input w0).1 = none →
        ∃ message w wc,
          (OpenOutput K X in_meta input w0).2 = Event.error message "OpenOutput" :: w ∧
          (OpenOutputConfidence K X in_meta input w0).2 =
            Event.error message "OpenOutput" :: wc)) ∧
    (∀ o oc, (OpenOutput K X in_meta input w0).1 = some o →
      (OpenOutputConfidence K X in_meta input w0).1 = some oc →
      o.«open» = oc.«open» ∧ o.nband = oc.nband ∧ o.size = oc.size ∧
      (∃ f fc w7 w7c,
        (OpenOutput K X in_meta input w0).2 = Event.open_raw_binary f "w" o.fp_bin :: w7 ∧
        (OpenOutputConfidence K X in_meta input w0).2 =
          Event.open_raw_binary fc "w" oc.fp_bin :: w7c) ∧
      ∃ bm bmc pre scene, o.metadata.band = [bm] ∧ oc.metadata.band = [bmc] ∧
        bm.short_name = pre ++ "CFMASK" ∧ bmc.short_name = pre ++ "CFMASK_CONF" ∧
        bm.file_name = scene ++ "_" ++ "cfmask" ++ ".img" ∧
        bmc.file_name = scene ++ "_" ++ "cfmask_conf" ++ ".img" ∧
        bm.product = "cfmask" ∧ bmc.product = "cfmask" ∧
        bm.source = "toa_refl" ∧ bmc.source = "toa_refl" ∧
        bm.category = "qa" ∧ bmc.category = "qa" ∧
        bm.nlines = bmc.nlines ∧ bm.nsamps = bmc.nsamps ∧
        bm.pixel_size = bmc.pixel_size ∧
        bm.pixel_units = "meters" ∧ bmc.pixel_units = "meters" ∧
        bm.app_version = bmc.app_version ∧
        bm.production_date = bmc.production_date ∧
        bm.data_type = bmc.data_type ∧ bm.fill_value = bmc.fill_value ∧
        bm.data_units = bmc.data_units ∧
        bm.valid_range.1 = 0 ∧ bmc.valid_range.1 = 0) := by
  have hcons : ∀ e : Event, e :: w0 = [e] ++ w0 := fun _ => rfl
  generalize hA : OpenOutput K X in_meta input w0 = A
  generalize hB : OpenOutputConfidence K X in_meta input w0 = B
  unfold OpenOutput at hA
  unfold OpenOutputConfidence at hB
  simp only [RETURN_ERROR] at hA hB
  generalize X.malloc w0 = p at hA hB
  generalize X.allocate_band_metadata _ _ = st_band at hA hB
  generalize X.time _ = tp at hA hB
  generalize X.gmtime _ _ = tm_ptr at hA hB
  by_cases h1 : p = NULL
  · rw [if_pos h1] at hA hB
    subst hA hB
    exact ⟨fun _ _ _ _ _ _ => ⟨Iff.rfl, fun _ => ⟨_, _, _, rfl, rfl⟩⟩,
      fun o oc ho _ => by cases ho⟩
  rw [if_neg h1] at hA hB
  by_cases h2 : find_ref_index in_meta.band 0 = -1
  · rw [if_pos h2] at hA hB
    subst hA hB
    exact ⟨fun _ _ _ _ _ _ => ⟨Iff.rfl, fun _ => ⟨_, _, _, rfl, rfl⟩⟩,
      fun o oc ho _ => by cases ho⟩
  rw [if_neg h2] at hA hB
  by_cases h3 : st_band ≠ K.SUCCESS
  · rw [if_pos h3] at hA hB
    subst hA hB
    exact ⟨fun _ _ _ _ _ _ => ⟨Iff.rfl, fun _ => ⟨_, _, _, rfl, rfl⟩⟩,
      fun o oc ho _ => by cases ho⟩
  rw [if_neg h3] at hA hB
  by_cases h4 : tp = -1
  · rw [if_pos h4] at hA hB
    subst hA hB
    exact ⟨fun _ _ _ _ _ _ => ⟨Iff.rfl, fun _ => ⟨_, _, _, rfl, rfl⟩⟩,
      fun o oc ho _ => by cases ho⟩
  rw [if_neg h4] at hA hB
  cases tm_ptr with
  | none =>
    try simp only at hA hB
    subst hA hB
    exact ⟨fun _ _ _ _ _ _ => ⟨Iff.rfl, fun _ => ⟨_, _, _, rfl, rfl⟩⟩,
      fun o oc ho _ => by cases ho⟩
  | some t =>
    try simp only at hA hB
    generalize X.strftime _ _ _ _ = fmt at hA hB
    by_cases h5 : fmt.1 = 0
    · rw [if_pos h5] at hA hB
      subst hA hB
      exact ⟨fun _ _ _ _ _ _ => ⟨Iff.rfl, fun _ => ⟨_, _, _, rfl, rfl⟩⟩,
        fun o oc ho _ => by cases ho⟩
    rw [if_neg h5] at hA hB
    generalize X.allocate_class_metadata _ 6 = st at hA
    generalize X.allocate_class_metadata _ 5 = stc at hB
    generalize X.open_raw_binary _ _ _ = fp at hA
    generalize X.open_raw_binary _ _ _ = fpc at hB
    by_cases h6 : st ≠ K.SUCCESS <;> by_cases h6c : stc ≠ K.SUCCESS <;>
      by_cases h7 : fp = NULL <;> by_cases h7c : fpc = NULL
    all_goals first | rw [if_pos h6] at hA | rw [if_neg h6] at hA
    all_goals first | rw [if_pos h6c] at hB | rw [if_neg h6c] at hB
    all_goals try first | rw [if_pos h7] at hA | rw [if_neg h7] at hA
    all_goals try first | rw [if_pos h7c] at hB | rw [if_neg h7c] at hB
    all_goals subst hA hB
    all_goals
      refine ⟨fun evs evsc he hec hclass hopen => ?_, fun o oc ho hoc => ?_⟩
      · simp only [hcons, ← List.cons_append, List.append_left_inj] at he hec
        subst he hec
        first
        | exact ⟨Iff.rfl, fun _ => ⟨_, _, _, rfl, rfl⟩⟩
        | (refine ⟨⟨fun h => ?_, fun h => ?_⟩, fun h => ?_⟩ <;> (simp at h; done))
        | (exfalso
           have hc := hclass 6 st 5 stc (by simp) (by simp)
           tauto)
        | (exfalso
           have hp := hopen _ "w" fp _ "w" fpc
             (by first
               | exact List.mem_cons_self _ _
               | exact List.mem_cons_of_mem _ (List.mem_cons_self _ _))
             (by first
               | exact List.mem_cons_self _ _
               | exact List.mem_cons_of_mem _ (List.mem_cons_self _ _))
           tauto)
      · first
        | (simp at ho; done)
        | (simp at hoc; done)
        | (simp only [Option.some.injEq] at ho hoc
           subst ho hoc
           exact ⟨rfl, rfl, rfl, ⟨_, _, _, _, rfl, rfl⟩, _, _,
             String.mk
               ((band_at in_meta (find_ref_index in_meta.band 0)).short_name.data.take 3),
             scene_name_of (band_at in_meta (find_ref_index in_meta.band 0)).file_name,
             rfl, rfl, rfl, rfl, rfl, rfl, rfl, rfl, rfl, rfl, rfl, rfl, rfl, rfl, rfl,
             rfl, rfl, rfl, rfl, rfl, rfl, rfl, rfl, rfl⟩)

/-- C17 in an outside world whose stream opener looks at the file name and
gives the two builders different handles: both builders return a descriptor,
and the descriptors agree on the open flag, the band count and the grid
size. -/
theorem C17_same_builder_witness :
    ((OpenOutput K0 X_by_name meta0 input0 []).1 = none ↔
      (OpenOutputConfidence K0 X_by_name meta0 input0 []).1 = none) ∧
    (OpenOutput K0 X_by_name meta0 input0 []).1 = some out_cfmask_by_name ∧
    (OpenOutputConfidence K0 X_by_name meta0 input0 []).1 = some out_conf_by_name ∧
    out_cfmask_by_name.fp_bin ≠ out_conf_by_name.fp_bin ∧
    out_cfmask_by_name.«open» = out_conf_by_name.«open» ∧
    out_cfmask_by_name.nband = out_conf_by_name.nband ∧
    out_cfmask_by_name.size = out_conf_by_name.size := by
  have hagree := (C17_same_builder K0 X_by_name meta0 input0 []).2
    out_cfmask_by_name out_conf_by_name rfl rfl
  have hfail := (C17_same_builder K0 X_by_name meta0 input0 []).1
    [Event.open_raw_binary "LC08_cfmask.img" "w" 8207, Event.allocate_class_metadata 6 0,
      Event.strftime 28 "%Y-%m-%dT%H:%M:%SZ" tm0 20 "2015-01-02T03:04:05Z",
      Event.gmtime 1420167845 (some tm0), Event.time 1420167845,
      Event.allocate_band_metadata 1 0, Event.init_metadata_struct, Event.malloc 4096]
    [Event.open_raw_binary "LC08_cfmask_conf.img" "w" 8212,
      Event.allocate_class_metadata 5 0,
      Event.strftime 28 "%Y-%m-%dT%H:%M:%SZ" tm0 20 "2015-01-02T03:04:05Z",
      Event.gmtime 1420167845 (some tm0), Event.time 1420167845,
      Event.allocate_band_metadata 1 0, Event.init_metadata_struct, Event.malloc 4096]
    rfl rfl
    (fun n st nc stc h hc => by
      simp at h hc
      obtain ⟨_, rfl⟩ := h
      obtain ⟨_, rfl⟩ := hc
      exact Iff.rfl)
    (fun f m p fc mc pc h hc => by
      simp at h hc
      obtain ⟨_, _, rfl⟩ := h
      obtain ⟨_, _, rfl⟩ := hc
      decide)
  exact ⟨hfail.1, rfl, rfl, by decide, hagree.1, hagree.2.1, hagree.2.2.1⟩

end Cfmask
